import Mathlib

/-!
A shallow embedding of the FastCGI library (record codec in fastcgi.py,
WSGI connection handler in fastcgi/wsgi.py and wsgi.py) and proofs about it.

Modelling conventions:
* Python `bytes` values are `List Nat` with every element < 256.
* Python `str` values that pass through the ISO-8859-1 codec are also
  modelled as `List Nat` (ISO-8859-1 is a bijection between bytes and the
  first 256 code points, so encode/decode are the identity on this model).
* Python exceptions are modelled by `Except Err`; each exception kind gets
  an `Err` constructor, `ValueError` carries its message string.
* Machine integers are `Nat`; the source's `_check_bit_width` guards are
  translated literally (`val >> width != 0`).
-/

deriving instance DecidableEq for Except

/-- Python exception kinds raised by the sources. -/
inductive Err where
  | eofError : Err                       -- EOFError
  | indexError : Err                     -- IndexError (b[i] with i out of range)
  | structError : Err                    -- struct.error (wrong buffer size / value range)
  | keyError (key : String) : Err        -- KeyError
  | valueError (msg : String) : Err      -- ValueError(msg)
deriving DecidableEq, Repr

/-- Source `BeginRequestRecord.Role`: RESPONDER=1, AUTHORIZER=2, FILTER=3. -/
inductive Role where
  | responder | authorizer | filter
deriving DecidableEq, Repr

/-- Numeric value of a role, as in the `enum.Enum`. -/
def Role.val : Role → Nat
  | .responder => 1
  | .authorizer => 2
  | .filter => 3

/-- Source `EndRequestRecord.ProtocolStatus`: REQUEST_COMPLETE=0, CANT_MPX_CONN=1,
OVERLOADED=2, UNKNOWN_ROLE=3. -/
inductive ProtocolStatus where
  | requestComplete | cantMpxConn | overloaded | unknownRole
deriving DecidableEq, Repr

/-- Numeric value of a protocol status. -/
def ProtocolStatus.val : ProtocolStatus → Nat
  | .requestComplete => 0
  | .cantMpxConn => 1
  | .overloaded => 2
  | .unknownRole => 3

/-- The record class hierarchy of fastcgi.py as a tagged sum.  Management
records (GetValues, GetValuesResult, UnknownType) always carry
`request_id == 0` in the source (their constructors pass a literal 0 to
`Record.__init__`), so they have no `reqid` field here.
`GetValuesRecord._names` is a Python `set[str]`; we model it as the list of
names in iteration order.  `GetValuesResultRecord._pairs` is a `dict[str,str]`,
modelled as an association list in insertion order. -/
inductive Record where
  | beginRequest (reqid : Nat) (role : Role) (keepconn : Bool) (padlen : Nat)
  | abortRequest (reqid : Nat) (padlen : Nat)
  | endRequest (reqid : Nat) (appstat : Nat) (protostat : ProtocolStatus) (padlen : Nat)
  | params (reqid : Nat) (content : List Nat) (padlen : Nat)
  | stdin (reqid : Nat) (content : List Nat) (padlen : Nat)
  | stdout (reqid : Nat) (content : List Nat) (padlen : Nat)
  | stderr (reqid : Nat) (content : List Nat) (padlen : Nat)
  | data (reqid : Nat) (content : List Nat) (padlen : Nat)
  | getValues (names : List (List Nat)) (padlen : Nat)
  | getValuesResult (pairs : List (List Nat × List Nat)) (padlen : Nat)
  | unknownType (unknowntype : Nat) (padlen : Nat)
  | custom (type : Nat) (reqid : Nat) (content : List Nat) (padlen : Nat)
deriving DecidableEq, Repr

/-- Big-endian 2-byte encoding (`>H` in struct format). -/
def be16 (n : Nat) : List Nat := [n / 256 % 256, n % 256]

/-- Big-endian 4-byte encoding (`>I` in struct format). -/
def be32 (n : Nat) : List Nat :=
  [n / 16777216 % 256, n / 65536 % 256, n / 256 % 256, n % 256]

/-- Source `_check_bit_width(val, width, errmsg)`: raises `ValueError(errmsg)` when
`val >> width != 0`, otherwise returns `val`. -/
def check_bit_width (val width : Nat) (errmsg : String) : Except Err Nat :=
  if val >>> width ≠ 0 then .error (.valueError errmsg) else .ok val

/-- Source `Record.__init__(reqid, padlen)`: validates the 16-bit request id and the
8-bit padding length. -/
def record_init (reqid padlen : Nat) : Except Err Unit := do
  let _ ← check_bit_width reqid 16 "Request ID out of range"
  let _ ← check_bit_width padlen 8 "Padding length out of range"
  .ok ()

/-- Source `_SimpleRecord.__init__(reqid, content, padlen)`: `Record.__init__` plus a
16-bit bound on the content length. -/
def simple_record_init (reqid : Nat) (content : List Nat) (padlen : Nat) : Except Err Unit := do
  let _ ← record_init reqid padlen
  let _ ← check_bit_width content.length 16 "Content too long"
  .ok ()

/-- Source `BeginRequestRecord.__init__`: rejects `reqid == 0`, then `Record.__init__`. -/
def mkBeginRequestRecord (reqid : Nat) (role : Role) (keepconn : Bool) (padlen : Nat) :
    Except Err Record := do
  if reqid = 0 then .error (.valueError "Invalid request ID") else
  let _ ← record_init reqid padlen
  .ok (.beginRequest reqid role keepconn padlen)

/-- Source `AbortRequestRecord.__init__`. -/
def mkAbortRequestRecord (reqid padlen : Nat) : Except Err Record := do
  if reqid = 0 then .error (.valueError "Invalid request ID") else
  let _ ← record_init reqid padlen
  .ok (.abortRequest reqid padlen)

/-- Source `EndRequestRecord.__init__`: rejects `reqid == 0`, validates the request id,
padding length and the 32-bit application status. -/
def mkEndRequestRecord (reqid appstat : Nat) (protostat : ProtocolStatus) (padlen : Nat) :
    Except Err Record := do
  if reqid = 0 then .error (.valueError "Invalid request ID") else
  let _ ← record_init reqid padlen
  let _ ← check_bit_width appstat 32 "Application status out of range"
  .ok (.endRequest reqid appstat protostat padlen)

/-- Source `ParamsRecord.__init__`. -/
def mkParamsRecord (reqid : Nat) (content : List Nat) (padlen : Nat) : Except Err Record := do
  if reqid = 0 then .error (.valueError "Invalid request ID") else
  let _ ← simple_record_init reqid content padlen
  .ok (.params reqid content padlen)

/-- Source `StdinRecord.__init__`. -/
def mkStdinRecord (reqid : Nat) (content : List Nat) (padlen : Nat) : Except Err Record := do
  if reqid = 0 then .error (.valueError "Invalid request ID") else
  let _ ← simple_record_init reqid content padlen
  .ok (.stdin reqid content padlen)

/-- Source `StdoutRecord.__init__`. -/
def mkStdoutRecord (reqid : Nat) (content : List Nat) (padlen : Nat) : Except Err Record := do
  if reqid = 0 then .error (.valueError "Invalid request ID") else
  let _ ← simple_record_init reqid content padlen
  .ok (.stdout reqid content padlen)

/-- Source `StderrRecord.__init__`. -/
def mkStderrRecord (reqid : Nat) (content : List Nat) (padlen : Nat) : Except Err Record := do
  if reqid = 0 then .error (.valueError "Invalid request ID") else
  let _ ← simple_record_init reqid content padlen
  .ok (.stderr reqid content padlen)

/-- Source `DataRecord.__init__`. -/
def mkDataRecord (reqid : Nat) (content : List Nat) (padlen : Nat) : Except Err Record := do
  if reqid = 0 then .error (.valueError "Invalid request ID") else
  let _ ← simple_record_init reqid content padlen
  .ok (.data reqid content padlen)

/-- Source `GetValuesRecord.__init__(names, padlen)`: calls `Record.__init__(0, padlen)`
(no bound on the names themselves). -/
def mkGetValuesRecord (names : List (List Nat)) (padlen : Nat) : Except Err Record := do
  let _ ← record_init 0 padlen
  .ok (.getValues names padlen)

/-- Source `GetValuesResultRecord.__init__(pairs, padlen)`: calls
`Record.__init__(0, padlen)` (no bound on the pairs themselves). -/
def mkGetValuesResultRecord (pairs : List (List Nat × List Nat)) (padlen : Nat) :
    Except Err Record := do
  let _ ← record_init 0 padlen
  .ok (.getValuesResult pairs padlen)

/-- Source `UnknownTypeRecord.__init__(unknowntype, padlen)`. -/
def mkUnknownTypeRecord (unknowntype padlen : Nat) : Except Err Record := do
  let _ ← record_init 0 padlen
  let _ ← check_bit_width unknowntype 8 "Type out of range"
  .ok (.unknownType unknowntype padlen)

/-- Source `CustomRecord.__init__(type, reqid, content, padlen)`: validates the 8-bit
type first, then `_SimpleRecord.__init__`.  Note: unlike every other
request-scoped record class, it does NOT reject `reqid == 0`. -/
def mkCustomRecord (type reqid : Nat) (content : List Nat) (padlen : Nat) :
    Except Err Record := do
  let _ ← check_bit_width type 8 "Type out of range"
  let _ ← simple_record_init reqid content padlen
  .ok (.custom type reqid content padlen)

/-- Source `Record.get_type()` of each concrete class. -/
def Record.get_type : Record → Nat
  | .beginRequest .. => 1
  | .abortRequest .. => 2
  | .endRequest .. => 3
  | .params .. => 4
  | .stdin .. => 5
  | .stdout .. => 6
  | .stderr .. => 7
  | .data .. => 8
  | .getValues .. => 9
  | .getValuesResult .. => 10
  | .unknownType .. => 11
  | .custom t .. => t

/-- Source `Record.get_request_id()` (management records store 0). -/
def Record.get_request_id : Record → Nat
  | .beginRequest reqid .. => reqid
  | .abortRequest reqid _ => reqid
  | .endRequest reqid .. => reqid
  | .params reqid .. => reqid
  | .stdin reqid .. => reqid
  | .stdout reqid .. => reqid
  | .stderr reqid .. => reqid
  | .data reqid .. => reqid
  | .getValues .. => 0
  | .getValuesResult .. => 0
  | .unknownType .. => 0
  | .custom _ reqid .. => reqid

/-- Source `Record.get_padding_length()`. -/
def Record.get_padding_length : Record → Nat
  | .beginRequest _ _ _ padlen => padlen
  | .abortRequest _ padlen => padlen
  | .endRequest _ _ _ padlen => padlen
  | .params _ _ padlen => padlen
  | .stdin _ _ padlen => padlen
  | .stdout _ _ padlen => padlen
  | .stderr _ _ padlen => padlen
  | .data _ _ padlen => padlen
  | .getValues _ padlen => padlen
  | .getValuesResult _ padlen => padlen
  | .unknownType _ padlen => padlen
  | .custom _ _ _ padlen => padlen

-- ---- Name-value pair codec ----

/-- The length prefix written by `dict_to_name_values`:
`struct.pack(">B", n)` when `n < 128`, else `struct.pack(">I", n | (1 << 31))`
(which raises `struct.error` when the value does not fit in 32 bits). -/
def encode_length (n : Nat) : Except Err (List Nat) :=
  if n < 128 then .ok [n]
  else if n ||| (1 <<< 31) < 4294967296 then .ok (be32 (n ||| (1 <<< 31)))
  else .error .structError

/-- One entry of `dict_to_name_values`: both length prefixes, then the raw
name bytes, then the raw value bytes. -/
def encode_pair (p : List Nat × List Nat) : Except Err (List Nat) := do
  let l1 ← encode_length p.1.length
  let l2 ← encode_length p.2.length
  .ok (l1 ++ l2 ++ p.1 ++ p.2)

/-- Source `dict_to_name_values(d)`: concatenation of the encoded entries in the
mapping's iteration order. -/
def dict_to_name_values : List (List Nat × List Nat) → Except Err (List Nat)
  | [] => .ok []
  | p :: t => do
    let seg ← encode_pair p
    let rest ← dict_to_name_values t
    .ok (seg ++ rest)

/-- Reading one length in `name_values_to_dict`: `n = b[i]` (IndexError when
the buffer is exhausted); one byte when `n < 128`, otherwise
`struct.unpack(">I", b[i:i+4])[0] ^ (1 << 31)` (struct.error when fewer than
4 bytes remain). -/
def read_length : List Nat → Except Err (Nat × List Nat)
  | [] => .error .indexError
  | n :: rest =>
    if n < 128 then .ok (n, rest)
    else
      match rest with
      | b1 :: b2 :: b3 :: rest2 =>
        .ok ((((n * 256 + b1) * 256 + b2) * 256 + b3) ^^^ (1 <<< 31), rest2)
      | _ => .error .structError

/-- The entry-extraction loop of `name_values_to_dict`, on the remaining
bytes, producing entries in stream order.  The source advances a cursor `i`;
we pass the suffix instead.  The `i > len(b)` check after slicing the key and
value corresponds to `n1 + n2 > (remaining bytes).length`.  `fuel` bounds the
iteration count; every successful iteration consumes at least one byte, so any
`fuel > b.length` is enough. -/
def nv_entries (fuel : Nat) (b : List Nat) : Except Err (List (List Nat × List Nat)) :=
  if b = [] then .ok []
  else match fuel with
    | 0 => .error .eofError
    | fuel + 1 => do
      let (n1, b1) ← read_length b
      let (n2, b2) ← read_length b1
      let key := b2.take n1
      let b3 := b2.drop n1
      let val := b3.take n2
      let b4 := b3.drop n2
      if b2.length < n1 + n2 then .error .eofError
      else do
        let rest ← nv_entries fuel b4
        .ok ((key, val) :: rest)

/-- Python dict assignment `d[k] = v`: replace the value at the first
occurrence of `k` (keeping its position), else append. -/
def py_dict_insert {α β : Type} [DecidableEq α] :
    List (α × β) → α → β → List (α × β)
  | [], k, v => [(k, v)]
  | (k1, v1) :: t, k, v =>
    if k1 = k then (k1, v) :: t else (k1, v1) :: py_dict_insert t k v

/-- Building a Python dict from entries in stream order (duplicate names
overwrite, later wins, original position kept). -/
def py_dict_of_entries {α β : Type} [DecidableEq α] (l : List (α × β)) : List (α × β) :=
  l.foldl (fun d kv => py_dict_insert d kv.1 kv.2) []

/-- Source `name_values_to_dict(b)`: extract the entries, accumulate them into a dict. -/
def name_values_to_dict (b : List Nat) : Except Err (List (List Nat × List Nat)) :=
  match nv_entries (b.length + 1) b with
  | .ok entries => .ok (py_dict_of_entries entries)
  | .error e => .error e

-- ---- Serialization ----

/-- Source `get_content()` of each record class.  BeginRequest packs `>HB5x`,
EndRequest packs `>IB3x`, UnknownType packs `>B7x`; simple records return the
stored bytes; GetValues/GetValuesResult encode their name-value pairs (which
can raise, hence `Except`). -/
def Record.get_content : Record → Except Err (List Nat)
  | .beginRequest _ role keepconn _ =>
    .ok (be16 role.val ++ [if keepconn then 1 else 0] ++ List.replicate 5 0)
  | .abortRequest _ _ => .ok []
  | .endRequest _ appstat protostat _ =>
    .ok (be32 appstat ++ [protostat.val] ++ List.replicate 3 0)
  | .params _ content _ => .ok content
  | .stdin _ content _ => .ok content
  | .stdout _ content _ => .ok content
  | .stderr _ content _ => .ok content
  | .data _ content _ => .ok content
  | .getValues names _ => dict_to_name_values (names.map fun k => (k, []))
  | .getValuesResult pairs _ => dict_to_name_values pairs
  | .unknownType unknowntype _ => .ok ([unknowntype] ++ List.replicate 7 0)
  | .custom _ _ content _ => .ok content

/-- Source `Record.to_bytes()`: validate the 8-bit type and the 16-bit content
length, then emit the 8-byte header (`>BBHHBx` with version 1), the content,
and `padding_length` zero bytes. -/
def Record.to_bytes (r : Record) : Except Err (List Nat) := do
  let type ← check_bit_width r.get_type 8 "Type out of range"
  let content ← r.get_content
  let _ ← check_bit_width content.length 16 "Content too long"
  .ok ([1, type] ++ be16 r.get_request_id ++ be16 content.length ++
       [r.get_padding_length, 0] ++ content ++ List.replicate r.get_padding_length 0)

-- ---- Parsing ----

/-- Source `read_exact(n)`: read `n` bytes from the stream, `EOFError` on short read. -/
def read_exact (n : Nat) (s : List Nat) : Except Err (List Nat × List Nat) :=
  if s.length < n then .error .eofError else .ok (s.take n, s.drop n)

/-- Source `BeginRequestRecord.parse_content`: unpack `>HB5x` (struct.error unless the
content is exactly 8 bytes), look the role up, reject any flag bit other than
`_FLAG_KEEP_CONN` (`flagsint &= ~1; flagsint != 0` is `flags >>> 1 ≠ 0`), then
construct. -/
def BeginRequestRecord.parse_content (reqid : Nat) (content : List Nat) (padlen : Nat) :
    Except Err Record :=
  match content with
  | [r1, r0, flags, _, _, _, _, _] =>
    let roleint := r1 * 256 + r0
    match (if roleint = 1 then some Role.responder
           else if roleint = 2 then some Role.authorizer
           else if roleint = 3 then some Role.filter
           else none) with
    | none => .error (.valueError "Unrecognized role")
    | some role =>
      let keepconn : Bool := flags &&& 1 != 0
      if flags >>> 1 ≠ 0 then .error (.valueError "Unrecognized flag")
      else mkBeginRequestRecord reqid role keepconn padlen
  | _ => .error .structError

/-- Source `AbortRequestRecord.parse_content`: unpack `">"` (struct.error unless the
content is empty), then construct. -/
def AbortRequestRecord.parse_content (reqid : Nat) (content : List Nat) (padlen : Nat) :
    Except Err Record :=
  match content with
  | [] => mkAbortRequestRecord reqid padlen
  | _ => .error .structError

/-- Source `EndRequestRecord.parse_content`: unpack `>IB3x`, look the protocol status
up, then construct. -/
def EndRequestRecord.parse_content (reqid : Nat) (content : List Nat) (padlen : Nat) :
    Except Err Record :=
  match content with
  | [a3, a2, a1, a0, ps, _, _, _] =>
    let appstat := ((a3 * 256 + a2) * 256 + a1) * 256 + a0
    match (if ps = 0 then some ProtocolStatus.requestComplete
           else if ps = 1 then some ProtocolStatus.cantMpxConn
           else if ps = 2 then some ProtocolStatus.overloaded
           else if ps = 3 then some ProtocolStatus.unknownRole
           else none) with
    | none => .error (.valueError "Unrecognized protocol status")
    | some protostat => mkEndRequestRecord reqid appstat protostat padlen
  | _ => .error .structError

/-- Source `GetValuesRecord.parse_content`: reject `reqid != 0`, decode the pairs,
reject any non-empty value, keep the names. -/
def GetValuesRecord.parse_content (reqid : Nat) (content : List Nat) (padlen : Nat) :
    Except Err Record := do
  if reqid ≠ 0 then .error (.valueError "Invalid request ID") else do
  let pairs ← name_values_to_dict content
  if pairs.any (fun p => p.2 ≠ []) then .error (.valueError "Non-empty value")
  else mkGetValuesRecord (pairs.map Prod.fst) padlen

/-- Source `GetValuesResultRecord.parse_content`: reject `reqid != 0`, decode. -/
def GetValuesResultRecord.parse_content (reqid : Nat) (content : List Nat) (padlen : Nat) :
    Except Err Record := do
  if reqid ≠ 0 then .error (.valueError "Invalid request ID") else do
  let pairs ← name_values_to_dict content
  mkGetValuesResultRecord pairs padlen

/-- Source `UnknownTypeRecord.parse_content`: reject `reqid != 0`, unpack `>B7x`. -/
def UnknownTypeRecord.parse_content (reqid : Nat) (content : List Nat) (padlen : Nat) :
    Except Err Record :=
  if reqid ≠ 0 then .error (.valueError "Invalid request ID")
  else match content with
  | [t, _, _, _, _, _, _, _] => mkUnknownTypeRecord t padlen
  | _ => .error .structError

/-- The `match type:` dispatch at the end of `Record.read_from_stream`. -/
def dispatch_record (type reqid : Nat) (content : List Nat) (padlen : Nat) :
    Except Err Record :=
  if type = 1 then BeginRequestRecord.parse_content reqid content padlen
  else if type = 2 then AbortRequestRecord.parse_content reqid content padlen
  else if type = 3 then EndRequestRecord.parse_content reqid content padlen
  else if type = 4 then mkParamsRecord reqid content padlen
  else if type = 5 then mkStdinRecord reqid content padlen
  else if type = 6 then mkStdoutRecord reqid content padlen
  else if type = 7 then mkStderrRecord reqid content padlen
  else if type = 8 then mkDataRecord reqid content padlen
  else if type = 9 then GetValuesRecord.parse_content reqid content padlen
  else if type = 10 then GetValuesResultRecord.parse_content reqid content padlen
  else if type = 11 then UnknownTypeRecord.parse_content reqid content padlen
  else mkCustomRecord type reqid content padlen

/-- Outcome of `Record.read_from_stream`: `None` (clean end of stream), a
record plus the unread rest of the stream, or a raised exception. -/
inductive ReadResult where
  | eos : ReadResult
  | record (r : Record) (rest : List Nat) : ReadResult
  | err (e : Err) : ReadResult
deriving DecidableEq, Repr

/-- Source `Record.read_from_stream(inp)` on a finite byte stream: read up to 8
header bytes (`None` when zero bytes are available, `EOFError` when between 1
and 7 arrive), check `version == 1`, read the content and padding, dispatch
on the type byte. -/
def Record.read_from_stream (s : List Nat) : ReadResult :=
  if s.isEmpty then .eos
  else
    match read_exact 8 s with
    | .error e => .err e
    | .ok (header, rest) =>
      match header with
      | [version, type, r1, r0, c1, c0, padlen, _] =>
        if version ≠ 1 then .err (.valueError "Unknown record version")
        else
          let reqid := r1 * 256 + r0
          let contentlen := c1 * 256 + c0
          match read_exact contentlen rest with
          | .error e => .err e
          | .ok (content, rest2) =>
            match read_exact padlen rest2 with
            | .error e => .err e
            | .ok (_, rest3) =>
              match dispatch_record type reqid content padlen with
              | .ok r => .record r rest3
              | .error e => .err e
      | _ => .err .structError

-- ---- Arithmetic and bitwise helper lemmas ----

/-- Setting an unset high bit is addition. -/
lemma lor_two_pow_31 {n : Nat} (h : n < 2 ^ 31) : n ||| 2 ^ 31 = n + 2 ^ 31 := by
  apply Nat.eq_of_testBit_eq
  intro i
  rw [Nat.testBit_lor]
  rcases lt_trichotomy i 31 with hi | rfl | hi
  · rw [Nat.testBit_two_pow_of_ne (by omega), Nat.add_comm, Nat.testBit_two_pow_add_gt hi]
    simp
  · rw [Nat.testBit_two_pow_self, Nat.add_comm, Nat.testBit_two_pow_add_eq,
      Nat.testBit_lt_two_pow h]
    rfl
  · have h1 : n < 2 ^ i := lt_of_lt_of_le h (Nat.pow_le_pow_right (by norm_num) (by omega))
    have h2 : n + 2 ^ 31 < 2 ^ i := by
      calc n + 2 ^ 31 < 2 ^ 32 := by omega
        _ ≤ 2 ^ i := Nat.pow_le_pow_right (by norm_num) (by omega)
    rw [Nat.testBit_lt_two_pow h1, Nat.testBit_lt_two_pow h2,
      Nat.testBit_two_pow_of_ne (by omega)]
    rfl

/-- Clearing a set high bit by xor is subtraction. -/
lemma xor_two_pow_31 {n : Nat} (h : n < 2 ^ 31) : (n + 2 ^ 31) ^^^ 2 ^ 31 = n := by
  apply Nat.eq_of_testBit_eq
  intro i
  rw [Nat.testBit_xor]
  rcases lt_trichotomy i 31 with hi | rfl | hi
  · rw [Nat.testBit_two_pow_of_ne (by omega), Nat.add_comm, Nat.testBit_two_pow_add_gt hi]
    simp
  · rw [Nat.testBit_two_pow_self, Nat.add_comm, Nat.testBit_two_pow_add_eq,
      Nat.testBit_lt_two_pow h]
    simp [Nat.testBit_lt_two_pow h]
  · have h1 : n < 2 ^ i := lt_of_lt_of_le h (Nat.pow_le_pow_right (by norm_num) (by omega))
    have h2 : n + 2 ^ 31 < 2 ^ i := by
      calc n + 2 ^ 31 < 2 ^ 32 := by omega
        _ ≤ 2 ^ i := Nat.pow_le_pow_right (by norm_num) (by omega)
    rw [Nat.testBit_lt_two_pow h1, Nat.testBit_lt_two_pow h2,
      Nat.testBit_two_pow_of_ne (by omega)]
    rfl

lemma check_bit_width_ok {v w : Nat} (msg : String) (h : v < 2 ^ w) :
    check_bit_width v w msg = .ok v := by
  simp [check_bit_width, Nat.shiftRight_eq_div_pow, Nat.div_eq_of_lt h]

lemma check_bit_width_err {v w : Nat} (msg : String) (h : 2 ^ w ≤ v) :
    check_bit_width v w msg = .error (.valueError msg) := by
  have hpos : 0 < 2 ^ w := Nat.pos_pow_of_pos w (by norm_num)
  have : v >>> w ≠ 0 := by
    rw [Nat.shiftRight_eq_div_pow]
    intro hz
    rw [Nat.div_eq_zero_iff hpos] at hz
    omega
  simp [check_bit_width, this]

lemma record_init_ok {reqid padlen : Nat} (h1 : reqid < 2 ^ 16) (h2 : padlen < 2 ^ 8) :
    record_init reqid padlen = .ok () := by
  simp [record_init, check_bit_width_ok _ h1, check_bit_width_ok _ h2, Bind.bind, Except.bind]

lemma simple_record_init_ok {reqid padlen : Nat} {content : List Nat}
    (h1 : reqid < 2 ^ 16) (h2 : padlen < 2 ^ 8) (h3 : content.length < 2 ^ 16) :
    simple_record_init reqid content padlen = .ok () := by
  simp [simple_record_init, record_init_ok h1 h2, check_bit_width_ok _ h3, Bind.bind,
    Except.bind]

-- ---- Length-prefix round trip ----

lemma encode_length_small {n : Nat} (h : n < 128) : encode_length n = .ok [n] := by
  simp [encode_length, h]

lemma encode_length_large {n : Nat} (h1 : ¬ n < 128) (h2 : n < 2 ^ 31) :
    encode_length n = .ok (be32 (n + 2 ^ 31)) := by
  have hor : n ||| 1 <<< 31 = n + 2 ^ 31 := by
    rw [Nat.one_shiftLeft]; exact lor_two_pow_31 h2
  simp only [encode_length, hor]
  rw [if_neg h1, if_pos (by omega)]

/-- Decoding the length prefix written by `encode_length`. -/
lemma read_length_encode {n : Nat} (h : n < 2 ^ 31) :
    ∃ l, encode_length n = .ok l ∧ 1 ≤ l.length ∧
      ∀ rest, read_length (l ++ rest) = .ok (n, rest) := by
  by_cases hs : n < 128
  · refine ⟨[n], encode_length_small hs, by simp, fun rest => ?_⟩
    simp [read_length, hs]
  · refine ⟨be32 (n + 2 ^ 31), encode_length_large hs h, by simp [be32], fun rest => ?_⟩
    have hhi : ¬ (n + 2 ^ 31) / 16777216 % 256 < 128 := by omega
    have hrec : ((((n + 2 ^ 31) / 16777216 % 256) * 256 + (n + 2 ^ 31) / 65536 % 256) * 256 +
        (n + 2 ^ 31) / 256 % 256) * 256 + (n + 2 ^ 31) % 256 = n + 2 ^ 31 := by omega
    simp only [be32, List.cons_append, List.nil_append, read_length]
    rw [if_neg hhi]
    rw [hrec, Nat.one_shiftLeft, xor_two_pow_31 h]

/-- Decoding one encoded entry from the front of the stream. -/
lemma nv_entries_step (k v bs1 : List Nat) (hk : k.length < 2 ^ 31) (hv : v.length < 2 ^ 31) :
    ∃ seg, encode_pair (k, v) = .ok seg ∧ 1 ≤ seg.length ∧
      ∀ f, nv_entries (f + 1) (seg ++ bs1) =
        (nv_entries f bs1).map (fun l => (k, v) :: l) := by
  obtain ⟨l1, he1, hl1, hr1⟩ := read_length_encode hk
  obtain ⟨l2, he2, hl2, hr2⟩ := read_length_encode hv
  refine ⟨l1 ++ l2 ++ k ++ v, ?_, by simp only [List.length_append]; omega, fun f => ?_⟩
  · simp [encode_pair, he1, he2, Bind.bind, Except.bind]
  · have hne : l1 ++ l2 ++ k ++ v ++ bs1 ≠ [] :=
      List.length_pos.mp (by simp only [List.length_append]; omega)
    rw [nv_entries.eq_def]
    rw [if_neg hne]
    have hb : l1 ++ l2 ++ k ++ v ++ bs1 = l1 ++ (l2 ++ (k ++ (v ++ bs1))) := by
      simp [List.append_assoc]
    rw [hb, hr1 (l2 ++ (k ++ (v ++ bs1)))]
    simp only [Bind.bind, Except.bind]
    rw [hr2 (k ++ (v ++ bs1))]
    have htk : (k ++ (v ++ bs1)).take k.length = k := List.take_left k (v ++ bs1)
    have hdk : (k ++ (v ++ bs1)).drop k.length = v ++ bs1 := List.drop_left k (v ++ bs1)
    have htv : (v ++ bs1).take v.length = v := List.take_left v bs1
    have hdv : (v ++ bs1).drop v.length = bs1 := List.drop_left v bs1
    have hlen : ¬ (k ++ (v ++ bs1)).length < k.length + v.length := by
      simp only [List.length_append, not_lt]
      omega
    simp only [htk, hdk, htv, hdv]
    rw [if_neg hlen]
    cases hnv : nv_entries f bs1 <;> simp [hnv, Except.map, Bind.bind, Except.bind]

/-- Extracting the entries back out of an encoded mapping. -/
lemma nv_entries_encode (m : List (List Nat × List Nat))
    (hlen : ∀ p ∈ m, p.1.length < 2 ^ 31 ∧ p.2.length < 2 ^ 31) :
    ∃ bs, dict_to_name_values m = .ok bs ∧
      ∀ fuel, bs.length < fuel → nv_entries fuel bs = .ok m := by
  induction m with
  | nil => exact ⟨[], rfl, fun fuel _ => by rw [nv_entries.eq_def]; simp⟩
  | cons p t ih =>
    obtain ⟨k, v⟩ := p
    obtain ⟨hk, hv⟩ := hlen (k, v) (List.mem_cons_self _ _)
    obtain ⟨bs1, henc1, hdec1⟩ := ih (fun q hq => hlen q (List.mem_cons_of_mem _ hq))
    obtain ⟨seg, hseg, hseglen, hstep⟩ := nv_entries_step k v bs1 hk hv
    refine ⟨seg ++ bs1, ?_, fun fuel hf => ?_⟩
    · simp [dict_to_name_values, hseg, henc1, Bind.bind, Except.bind]
    · cases fuel with
      | zero => simp at hf
      | succ f =>
        rw [hstep f, hdec1 f (by simp at hf; omega)]
        rfl

lemma py_dict_insert_fresh {α β : Type} [DecidableEq α] (d : List (α × β)) (k : α) (v : β)
    (h : k ∉ d.map Prod.fst) : py_dict_insert d k v = d ++ [(k, v)] := by
  induction d with
  | nil => rfl
  | cons p t ih =>
    obtain ⟨k1, v1⟩ := p
    simp only [List.map_cons, List.mem_cons, not_or] at h
    rw [py_dict_insert, if_neg (fun hx => h.1 hx.symm), ih h.2]
    simp

lemma py_dict_fold_append {α β : Type} [DecidableEq α] (l acc : List (α × β))
    (hnd : (l.map Prod.fst).Nodup) (hdisj : ∀ x ∈ l.map Prod.fst, x ∉ acc.map Prod.fst) :
    l.foldl (fun d kv => py_dict_insert d kv.1 kv.2) acc = acc ++ l := by
  induction l generalizing acc with
  | nil => simp
  | cons p t ih =>
    obtain ⟨k, v⟩ := p
    simp only [List.foldl_cons]
    rw [py_dict_insert_fresh acc k v (hdisj k (by simp))]
    have hnd1 : (t.map Prod.fst).Nodup := by
      simp only [List.map_cons] at hnd
      exact hnd.of_cons
    have hdisj1 : ∀ x ∈ t.map Prod.fst, x ∉ (acc ++ [(k, v)]).map Prod.fst := by
      intro x hx
      have hk : x ≠ k := by
        simp only [List.map_cons] at hnd
        intro hxk
        subst hxk
        exact (List.nodup_cons.mp hnd).1 hx
      simp only [List.map_append, List.map_cons, List.map_nil, List.mem_append,
        List.mem_cons, List.not_mem_nil, not_or]
      exact ⟨hdisj x (by simp [hx]), hk, fun hfalse => hfalse⟩
    rw [ih (acc ++ [(k, v)]) hnd1 hdisj1]
    simp

/-- A Python dict built from entries with pairwise distinct names is those
entries in order. -/
lemma py_dict_of_entries_nodup {α β : Type} [DecidableEq α] (l : List (α × β))
    (h : (l.map Prod.fst).Nodup) : py_dict_of_entries l = l := by
  simpa [py_dict_of_entries] using py_dict_fold_append l [] h (by simp)

/-- The name-value round trip: decoding an encoded mapping with distinct
names and 31-bit name/value lengths gives the mapping back. -/
lemma name_values_roundtrip (m : List (List Nat × List Nat))
    (hnd : (m.map Prod.fst).Nodup)
    (hlen : ∀ p ∈ m, p.1.length < 2 ^ 31 ∧ p.2.length < 2 ^ 31) :
    ∃ bs, dict_to_name_values m = .ok bs ∧ name_values_to_dict bs = .ok m := by
  obtain ⟨bs, henc, hdec⟩ := nv_entries_encode m hlen
  refine ⟨bs, henc, ?_⟩
  rw [name_values_to_dict, hdec (bs.length + 1) (Nat.lt_succ_self _)]
  show Except.ok (py_dict_of_entries m) = Except.ok m
  rw [py_dict_of_entries_nodup m hnd]


-- ---- Record round trip (C1) ----

/-- Reading back one serialized frame consumes it entirely and ends in the
type dispatch. -/
lemma read_frame (ty reqid padlen : Nat) (content : List Nat)
    (hreq : reqid < 65536) (hc : content.length < 65536) :
    Record.read_from_stream
      ([1, ty] ++ be16 reqid ++ be16 content.length ++ [padlen, 0] ++
        content ++ List.replicate padlen 0) =
    match dispatch_record ty reqid content padlen with
    | .ok r => .record r []
    | .error e => .err e := by
  have e1 : reqid / 256 % 256 * 256 + reqid % 256 = reqid := by omega
  have e2 : content.length / 256 % 256 * 256 + content.length % 256 = content.length := by omega
  rw [Record.read_from_stream]
  simp only [be16, List.cons_append, List.nil_append, List.isEmpty_cons, Bool.false_eq_true,
    if_false, read_exact, List.length_cons, List.length_append, List.length_replicate]
  rw [if_neg (by omega)]
  simp only [List.take_succ_cons, List.take_zero, List.drop_succ_cons, List.drop_zero]
  rw [if_neg (by simp), e1, e2]
  rw [if_neg (by simp only [List.length_append, List.length_replicate]; omega)]
  rw [List.take_left, List.drop_left]
  simp only [List.length_replicate, Nat.lt_irrefl, if_false, List.drop_replicate,
    Nat.sub_self, List.replicate_zero]

/-- Source `to_bytes` on a record whose content is available and fits. -/
lemma to_bytes_eval (r : Record) (content : List Nat)
    (hty : r.get_type < 256) (hcontent : r.get_content = .ok content)
    (hc : content.length < 65536) :
    r.to_bytes = .ok ([1, r.get_type] ++ be16 r.get_request_id ++ be16 content.length ++
      [r.get_padding_length, 0] ++ content ++ List.replicate r.get_padding_length 0) := by
  have hty2 : r.get_type < 2 ^ 8 := by omega
  have hc2 : content.length < 2 ^ 16 := by omega
  simp [Record.to_bytes, check_bit_width_ok _ hty2, hcontent, check_bit_width_ok _ hc2,
    Bind.bind, Except.bind]

lemma dispatch_begin {reqid padlen : Nat} (role : Role) (kc : Bool)
    (h0 : reqid ≠ 0) (h16 : reqid < 65536) (h8 : padlen < 256) :
    dispatch_record 1 reqid (be16 role.val ++ [if kc then 1 else 0] ++ List.replicate 5 0)
      padlen = .ok (.beginRequest reqid role kc padlen) := by
  have h16 : reqid < 2 ^ 16 := by omega
  have h8 : padlen < 2 ^ 8 := by omega
  cases role <;> cases kc <;>
    simp [dispatch_record, BeginRequestRecord.parse_content, Role.val, be16,
      List.replicate, mkBeginRequestRecord, h0, record_init_ok h16 h8, Bind.bind, Except.bind]

lemma dispatch_abort {reqid padlen : Nat}
    (h0 : reqid ≠ 0) (h16 : reqid < 65536) (h8 : padlen < 256) :
    dispatch_record 2 reqid [] padlen = .ok (.abortRequest reqid padlen) := by
  have h16 : reqid < 2 ^ 16 := by omega
  have h8 : padlen < 2 ^ 8 := by omega
  simp [dispatch_record, AbortRequestRecord.parse_content, mkAbortRequestRecord, h0,
    record_init_ok h16 h8, Bind.bind, Except.bind]

lemma dispatch_end {reqid appstat padlen : Nat} (ps : ProtocolStatus)
    (h0 : reqid ≠ 0) (h16 : reqid < 65536) (h8 : padlen < 256) (h32 : appstat < 4294967296) :
    dispatch_record 3 reqid (be32 appstat ++ [ps.val] ++ List.replicate 3 0) padlen =
      .ok (.endRequest reqid appstat ps padlen) := by
  have e : ((appstat / 16777216 % 256 * 256 + appstat / 65536 % 256) * 256 +
      appstat / 256 % 256) * 256 + appstat % 256 = appstat := by omega
  have h16 : reqid < 2 ^ 16 := by omega
  have h8 : padlen < 2 ^ 8 := by omega
  have h32 : appstat < 2 ^ 32 := by omega
  cases ps <;>
    simp [dispatch_record, EndRequestRecord.parse_content, ProtocolStatus.val, be32,
      List.replicate, e, mkEndRequestRecord, h0, record_init_ok h16 h8,
      check_bit_width_ok _ h32, Bind.bind, Except.bind]

lemma dispatch_unknown {t padlen : Nat} (h8t : t < 256) (h8 : padlen < 256) :
    dispatch_record 11 0 ([t] ++ List.replicate 7 0) padlen =
      .ok (.unknownType t padlen) := by
  have h8' : padlen < 2 ^ 8 := by omega
  have h8t2 : t < 2 ^ 8 := by omega
  simp [dispatch_record, UnknownTypeRecord.parse_content, List.replicate,
    mkUnknownTypeRecord, @record_init_ok 0 padlen (by norm_num) h8', check_bit_width_ok _ h8t2,
    Bind.bind, Except.bind]

lemma dispatch_custom {t reqid padlen : Nat} {content : List Nat}
    (ht : ¬ (1 ≤ t ∧ t ≤ 11)) (h8t : t < 256) (h16 : reqid < 65536) (h8 : padlen < 256)
    (hc : content.length < 65536) :
    dispatch_record t reqid content padlen = .ok (.custom t reqid content padlen) := by
  have h1 : t ≠ 1 := by omega
  have h2 : t ≠ 2 := by omega
  have h3 : t ≠ 3 := by omega
  have h4 : t ≠ 4 := by omega
  have h5 : t ≠ 5 := by omega
  have h6 : t ≠ 6 := by omega
  have h7 : t ≠ 7 := by omega
  have h8' : t ≠ 8 := by omega
  have h9 : t ≠ 9 := by omega
  have h10 : t ≠ 10 := by omega
  have h11 : t ≠ 11 := by omega
  have h16b : reqid < 2 ^ 16 := by omega
  have h8b : padlen < 2 ^ 8 := by omega
  have h8tb : t < 2 ^ 8 := by omega
  have hcb : content.length < 2 ^ 16 := by omega
  simp [dispatch_record, h1, h2, h3, h4, h5, h6, h7, h8', h9, h10, h11, mkCustomRecord,
    check_bit_width_ok _ h8tb, simple_record_init_ok h16b h8b hcb, Bind.bind, Except.bind]

lemma dispatch_params {reqid padlen : Nat} {content : List Nat}
    (h0 : reqid ≠ 0) (h16 : reqid < 65536) (h8 : padlen < 256) (hc : content.length < 65536) :
    dispatch_record 4 reqid content padlen = .ok (.params reqid content padlen) := by
  have h16' : reqid < 2 ^ 16 := by omega
  have h8' : padlen < 2 ^ 8 := by omega
  have hc' : content.length < 2 ^ 16 := by omega
  simp [dispatch_record, mkParamsRecord, h0, simple_record_init_ok h16' h8' hc',
    Bind.bind, Except.bind]

lemma dispatch_stdin {reqid padlen : Nat} {content : List Nat}
    (h0 : reqid ≠ 0) (h16 : reqid < 65536) (h8 : padlen < 256) (hc : content.length < 65536) :
    dispatch_record 5 reqid content padlen = .ok (.stdin reqid content padlen) := by
  have h16' : reqid < 2 ^ 16 := by omega
  have h8' : padlen < 2 ^ 8 := by omega
  have hc' : content.length < 2 ^ 16 := by omega
  simp [dispatch_record, mkStdinRecord, h0, simple_record_init_ok h16' h8' hc',
    Bind.bind, Except.bind]

lemma dispatch_stdout {reqid padlen : Nat} {content : List Nat}
    (h0 : reqid ≠ 0) (h16 : reqid < 65536) (h8 : padlen < 256) (hc : content.length < 65536) :
    dispatch_record 6 reqid content padlen = .ok (.stdout reqid content padlen) := by
  have h16' : reqid < 2 ^ 16 := by omega
  have h8' : padlen < 2 ^ 8 := by omega
  have hc' : content.length < 2 ^ 16 := by omega
  simp [dispatch_record, mkStdoutRecord, h0, simple_record_init_ok h16' h8' hc',
    Bind.bind, Except.bind]

lemma dispatch_stderr {reqid padlen : Nat} {content : List Nat}
    (h0 : reqid ≠ 0) (h16 : reqid < 65536) (h8 : padlen < 256) (hc : content.length < 65536) :
    dispatch_record 7 reqid content padlen = .ok (.stderr reqid content padlen) := by
  have h16' : reqid < 2 ^ 16 := by omega
  have h8' : padlen < 2 ^ 8 := by omega
  have hc' : content.length < 2 ^ 16 := by omega
  simp [dispatch_record, mkStderrRecord, h0, simple_record_init_ok h16' h8' hc',
    Bind.bind, Except.bind]

lemma dispatch_data {reqid padlen : Nat} {content : List Nat}
    (h0 : reqid ≠ 0) (h16 : reqid < 65536) (h8 : padlen < 256) (hc : content.length < 65536) :
    dispatch_record 8 reqid content padlen = .ok (.data reqid content padlen) := by
  have h16' : reqid < 2 ^ 16 := by omega
  have h8' : padlen < 2 ^ 8 := by omega
  have hc' : content.length < 2 ^ 16 := by omega
  simp [dispatch_record, mkDataRecord, h0, simple_record_init_ok h16' h8' hc',
    Bind.bind, Except.bind]

lemma dispatch_getValues {padlen : Nat} {names : List (List Nat)} {bs : List Nat}
    (h8 : padlen < 256)
    (hdec : name_values_to_dict bs = .ok (names.map fun k => (k, ([] : List Nat)))) :
    dispatch_record 9 0 bs padlen = .ok (.getValues names padlen) := by
  have h8' : padlen < 2 ^ 8 := by omega
  simp [dispatch_record, GetValuesRecord.parse_content, hdec, mkGetValuesRecord,
    @record_init_ok 0 padlen (by norm_num) h8', List.any_map, Function.comp,
    List.map_map, List.map_id', Bind.bind, Except.bind]
  exact List.map_id _

lemma dispatch_getValuesResult {padlen : Nat} {pairs : List (List Nat × List Nat)}
    {bs : List Nat} (h8 : padlen < 256)
    (hdec : name_values_to_dict bs = .ok pairs) :
    dispatch_record 10 0 bs padlen = .ok (.getValuesResult pairs padlen) := by
  have h8' : padlen < 2 ^ 8 := by omega
  simp [dispatch_record, GetValuesResultRecord.parse_content, hdec, mkGetValuesResultRecord,
    @record_init_ok 0 padlen (by norm_num) h8', Bind.bind, Except.bind]

/-- Whether a content-producing computation succeeded with a result that fits
in the 16-bit content-length field. -/
def encoded_fits (e : Except Err (List Nat)) : Bool :=
  match e with
  | .ok bs => decide (bs.length < 65536)
  | .error _ => false

/-- A valid record: one that the constructors of fastcgi.py accept (field
bounds, non-zero request id where the class demands it, byte-valued content)
and whose content serializes into the 16-bit length field.  For the Custom
variant the tag must be outside 1..11, since tags 1..11 parse as the named
classes. -/
def Record.wf : Record → Prop := fun r =>
  match r with
  | .beginRequest reqid _ _ padlen => reqid ≠ 0 ∧ reqid < 65536 ∧ padlen < 256
  | .abortRequest reqid padlen => reqid ≠ 0 ∧ reqid < 65536 ∧ padlen < 256
  | .endRequest reqid appstat _ padlen =>
    reqid ≠ 0 ∧ reqid < 65536 ∧ padlen < 256 ∧ appstat < 4294967296
  | .params reqid content padlen =>
    reqid ≠ 0 ∧ reqid < 65536 ∧ padlen < 256 ∧ content.length < 65536 ∧ ∀ b ∈ content, b < 256
  | .stdin reqid content padlen =>
    reqid ≠ 0 ∧ reqid < 65536 ∧ padlen < 256 ∧ content.length < 65536 ∧ ∀ b ∈ content, b < 256
  | .stdout reqid content padlen =>
    reqid ≠ 0 ∧ reqid < 65536 ∧ padlen < 256 ∧ content.length < 65536 ∧ ∀ b ∈ content, b < 256
  | .stderr reqid content padlen =>
    reqid ≠ 0 ∧ reqid < 65536 ∧ padlen < 256 ∧ content.length < 65536 ∧ ∀ b ∈ content, b < 256
  | .data reqid content padlen =>
    reqid ≠ 0 ∧ reqid < 65536 ∧ padlen < 256 ∧ content.length < 65536 ∧ ∀ b ∈ content, b < 256
  | .getValues names padlen =>
    padlen < 256 ∧ names.Nodup ∧ (∀ k ∈ names, k.length < 2 ^ 31 ∧ ∀ b ∈ k, b < 256) ∧
      encoded_fits (dict_to_name_values (names.map fun k => (k, []))) = true
  | .getValuesResult pairs padlen =>
    padlen < 256 ∧ (pairs.map Prod.fst).Nodup ∧
      (∀ p ∈ pairs, p.1.length < 2 ^ 31 ∧ p.2.length < 2 ^ 31 ∧
        (∀ b ∈ p.1, b < 256) ∧ ∀ b ∈ p.2, b < 256) ∧
      encoded_fits (dict_to_name_values pairs) = true
  | .unknownType t padlen => t < 256 ∧ padlen < 256
  | .custom t reqid content padlen =>
    t < 256 ∧ ¬ (1 ≤ t ∧ t ≤ 11) ∧ reqid < 65536 ∧ padlen < 256 ∧
      content.length < 65536 ∧ ∀ b ∈ content, b < 256

/-- C1: For every valid Record r (every variant: BeginRequest, AbortRequest,
EndRequest, Params, Stdin, Stdout, Stderr, Data, GetValues, GetValuesResult,
UnknownType, and Custom with a tag outside 1..11), parsing the bytes produced
by serializing r yields a record equal to r, where equality compares the tag
and all payload fields including request_id and padding_length. -/
theorem c1_record_roundtrip (r : Record) (h : r.wf) :
    ∃ bs, r.to_bytes = .ok bs ∧ Record.read_from_stream bs = .record r [] := by
  cases r with
  | beginRequest reqid role kc padlen =>
    simp only [Record.wf] at h
    obtain ⟨h0, h16, h8⟩ := h
    refine ⟨_, to_bytes_eval _ (be16 role.val ++ [if kc then 1 else 0] ++ List.replicate 5 0)
      (by norm_num [Record.get_type]) rfl (by simp [be16]), ?_⟩
    simp only [Record.get_type, Record.get_request_id, Record.get_padding_length]
    rw [read_frame 1 reqid padlen _ h16 (by simp [be16])]
    rw [dispatch_begin role kc h0 h16 h8]
  | abortRequest reqid padlen =>
    simp only [Record.wf] at h
    obtain ⟨h0, h16, h8⟩ := h
    refine ⟨_, to_bytes_eval _ [] (by norm_num [Record.get_type]) rfl (by simp), ?_⟩
    simp only [Record.get_type, Record.get_request_id, Record.get_padding_length]
    rw [read_frame 2 reqid padlen _ h16 (by simp)]
    rw [dispatch_abort h0 h16 h8]
  | endRequest reqid appstat ps padlen =>
    simp only [Record.wf] at h
    obtain ⟨h0, h16, h8, h32⟩ := h
    refine ⟨_, to_bytes_eval _ (be32 appstat ++ [ps.val] ++ List.replicate 3 0)
      (by norm_num [Record.get_type]) rfl (by simp [be32]), ?_⟩
    simp only [Record.get_type, Record.get_request_id, Record.get_padding_length]
    rw [read_frame 3 reqid padlen _ h16 (by simp [be32])]
    rw [dispatch_end ps h0 h16 h8 h32]
  | params reqid content padlen =>
    simp only [Record.wf] at h
    obtain ⟨h0, h16, h8, hc, _⟩ := h
    refine ⟨_, to_bytes_eval _ content (by norm_num [Record.get_type]) rfl hc, ?_⟩
    simp only [Record.get_type, Record.get_request_id, Record.get_padding_length]
    rw [read_frame 4 reqid padlen _ h16 hc]
    rw [dispatch_params h0 h16 h8 hc]
  | stdin reqid content padlen =>
    simp only [Record.wf] at h
    obtain ⟨h0, h16, h8, hc, _⟩ := h
    refine ⟨_, to_bytes_eval _ content (by norm_num [Record.get_type]) rfl hc, ?_⟩
    simp only [Record.get_type, Record.get_request_id, Record.get_padding_length]
    rw [read_frame 5 reqid padlen _ h16 hc]
    rw [dispatch_stdin h0 h16 h8 hc]
  | stdout reqid content padlen =>
    simp only [Record.wf] at h
    obtain ⟨h0, h16, h8, hc, _⟩ := h
    refine ⟨_, to_bytes_eval _ content (by norm_num [Record.get_type]) rfl hc, ?_⟩
    simp only [Record.get_type, Record.get_request_id, Record.get_padding_length]
    rw [read_frame 6 reqid padlen _ h16 hc]
    rw [dispatch_stdout h0 h16 h8 hc]
  | stderr reqid content padlen =>
    simp only [Record.wf] at h
    obtain ⟨h0, h16, h8, hc, _⟩ := h
    refine ⟨_, to_bytes_eval _ content (by norm_num [Record.get_type]) rfl hc, ?_⟩
    simp only [Record.get_type, Record.get_request_id, Record.get_padding_length]
    rw [read_frame 7 reqid padlen _ h16 hc]
    rw [dispatch_stderr h0 h16 h8 hc]
  | data reqid content padlen =>
    simp only [Record.wf] at h
    obtain ⟨h0, h16, h8, hc, _⟩ := h
    refine ⟨_, to_bytes_eval _ content (by norm_num [Record.get_type]) rfl hc, ?_⟩
    simp only [Record.get_type, Record.get_request_id, Record.get_padding_length]
    rw [read_frame 8 reqid padlen _ h16 hc]
    rw [dispatch_data h0 h16 h8 hc]
  | getValues names padlen =>
    simp only [Record.wf] at h
    obtain ⟨h8, hnd, hkv, hfit⟩ := h
    have hlen : ∀ p ∈ names.map (fun k => (k, ([] : List Nat))),
        p.1.length < 2 ^ 31 ∧ p.2.length < 2 ^ 31 := by
      intro p hp
      simp only [List.mem_map] at hp
      obtain ⟨k, hk, rfl⟩ := hp
      exact ⟨(hkv k hk).1, by norm_num⟩
    have hmapid : (names.map fun k => (k, ([] : List Nat))).map Prod.fst = names := by
      rw [List.map_map]
      exact List.map_id'' (fun _ => rfl) names
    have hnd2 : ((names.map fun k => (k, ([] : List Nat))).map Prod.fst).Nodup := by
      rw [hmapid]
      exact hnd
    obtain ⟨bs, henc, hdec⟩ := name_values_roundtrip _ hnd2 hlen
    have hbs : bs.length < 65536 := by
      rw [henc] at hfit
      simpa [encoded_fits] using hfit
    have hcont : (Record.getValues names padlen).get_content = .ok bs := by
      simp [Record.get_content, henc]
    refine ⟨_, to_bytes_eval _ bs (by norm_num [Record.get_type]) hcont hbs, ?_⟩
    simp only [Record.get_type, Record.get_request_id, Record.get_padding_length]
    rw [read_frame 9 0 padlen bs (by norm_num) hbs]
    rw [dispatch_getValues h8 hdec]
  | getValuesResult pairs padlen =>
    simp only [Record.wf] at h
    obtain ⟨h8, hnd, hkv, hfit⟩ := h
    have hlen : ∀ p ∈ pairs, p.1.length < 2 ^ 31 ∧ p.2.length < 2 ^ 31 :=
      fun p hp => ⟨(hkv p hp).1, (hkv p hp).2.1⟩
    obtain ⟨bs, henc, hdec⟩ := name_values_roundtrip _ hnd hlen
    have hbs : bs.length < 65536 := by
      rw [henc] at hfit
      simpa [encoded_fits] using hfit
    have hcont : (Record.getValuesResult pairs padlen).get_content = .ok bs := by
      simp [Record.get_content, henc]
    refine ⟨_, to_bytes_eval _ bs (by norm_num [Record.get_type]) hcont hbs, ?_⟩
    simp only [Record.get_type, Record.get_request_id, Record.get_padding_length]
    rw [read_frame 10 0 padlen bs (by norm_num) hbs]
    rw [dispatch_getValuesResult h8 hdec]
  | unknownType t padlen =>
    simp only [Record.wf] at h
    obtain ⟨ht, h8⟩ := h
    refine ⟨_, to_bytes_eval _ ([t] ++ List.replicate 7 0)
      (by norm_num [Record.get_type]) rfl (by simp), ?_⟩
    simp only [Record.get_type, Record.get_request_id, Record.get_padding_length]
    rw [read_frame 11 0 padlen _ (by norm_num) (by simp)]
    rw [dispatch_unknown ht h8]
  | custom t reqid content padlen =>
    simp only [Record.wf] at h
    obtain ⟨ht, hrange, h16, h8, hc, _⟩ := h
    refine ⟨_, to_bytes_eval _ content (by simpa [Record.get_type] using ht) rfl hc, ?_⟩
    simp only [Record.get_type, Record.get_request_id, Record.get_padding_length]
    rw [read_frame t reqid padlen _ h16 hc]
    rw [dispatch_custom hrange ht h16 h8 hc]

theorem c1_record_roundtrip_witness :
    (Record.beginRequest 0x31DA .authorizer true 0).wf ∧
    ∃ bs, (Record.beginRequest 0x31DA .authorizer true 0).to_bytes = .ok bs ∧
      Record.read_from_stream bs = .record (.beginRequest 0x31DA .authorizer true 0) [] :=
  ⟨by simp only [Record.wf]; refine ⟨by norm_num, by norm_num, by norm_num⟩,
   c1_record_roundtrip _ (by simp only [Record.wf]; refine ⟨by norm_num, by norm_num, by norm_num⟩)⟩

/-- C4: For every mapping m whose names and values are byte strings of length
< 2^31, decoding the name-value pair stream produced by encoding m yields
exactly m (same set of names, each mapped to the same value). -/
theorem c4_name_values_roundtrip (m : List (List Nat × List Nat))
    (hnd : (m.map Prod.fst).Nodup)
    (hbytes : ∀ p ∈ m, (∀ b ∈ p.1, b < 256) ∧ ∀ b ∈ p.2, b < 256)
    (hlen : ∀ p ∈ m, p.1.length < 2 ^ 31 ∧ p.2.length < 2 ^ 31) :
    ∃ bs, dict_to_name_values m = .ok bs ∧ name_values_to_dict bs = .ok m :=
  name_values_roundtrip m hnd hlen

theorem c4_name_values_roundtrip_witness :
    (([([65], [66, 67]), ([68], [])] : List (List Nat × List Nat)).map Prod.fst).Nodup ∧
    (∀ p ∈ ([([65], [66, 67]), ([68], [])] : List (List Nat × List Nat)),
      (∀ b ∈ p.1, b < 256) ∧ ∀ b ∈ p.2, b < 256) ∧
    (∀ p ∈ ([([65], [66, 67]), ([68], [])] : List (List Nat × List Nat)),
      p.1.length < 2 ^ 31 ∧ p.2.length < 2 ^ 31) ∧
    ∃ bs, dict_to_name_values [([65], [66, 67]), ([68], [])] = .ok bs ∧
      name_values_to_dict bs = .ok [([65], [66, 67]), ([68], [])] :=
  ⟨by decide, by decide, by decide,
   c4_name_values_roundtrip _ (by decide) (by decide) (by decide)⟩

-- ---- C9: constructible management records that cannot serialize ----

/-- C9: For every GetValuesRecord or GetValuesResultRecord whose name-value
pairs encode to a byte stream of length >= 2^16: construction succeeds (the
constructors do not bound the pairs), but serializing the record via to_bytes
fails with a content-too-long error, so a successfully constructed record is
not always serializable. -/
theorem c9_oversize_management (names : List (List Nat)) (pairs : List (List Nat × List Nat))
    (padlen : Nat) (h8 : padlen < 256) (bs1 bs2 : List Nat)
    (h1 : dict_to_name_values (names.map fun k => (k, [])) = .ok bs1)
    (hb1 : 65536 ≤ bs1.length)
    (h2 : dict_to_name_values pairs = .ok bs2) (hb2 : 65536 ≤ bs2.length) :
    mkGetValuesRecord names padlen = .ok (.getValues names padlen) ∧
    (Record.getValues names padlen).to_bytes = .error (.valueError "Content too long") ∧
    mkGetValuesResultRecord pairs padlen = .ok (.getValuesResult pairs padlen) ∧
    (Record.getValuesResult pairs padlen).to_bytes = .error (.valueError "Content too long") := by
  have h8' : padlen < 2 ^ 8 := by omega
  have hok := @record_init_ok 0 padlen (by norm_num) h8'
  refine ⟨?_, ?_, ?_, ?_⟩
  · simp [mkGetValuesRecord, hok, Bind.bind, Except.bind]
  · simp [Record.to_bytes, Record.get_type, Record.get_content, h1,
      @check_bit_width_ok 9 8 "Type out of range" (by norm_num),
      check_bit_width_err _ (show 2 ^ 16 ≤ bs1.length by omega), Bind.bind, Except.bind]
  · simp [mkGetValuesResultRecord, hok, Bind.bind, Except.bind]
  · simp [Record.to_bytes, Record.get_type, Record.get_content, h2,
      @check_bit_width_ok 10 8 "Type out of range" (by norm_num),
      check_bit_width_err _ (show 2 ^ 16 ≤ bs2.length by omega), Bind.bind, Except.bind]

/-- A 70000-byte name: its length needs the 4-byte encoding, and the encoded
pair stream exceeds the 16-bit content bound. -/
def big_name : List Nat := List.replicate 70000 65

def big_bytes : List Nat := [128, 1, 17, 112, 0] ++ big_name

lemma big_encode_gen (n : List Nat) (hn : n.length = 70000) :
    dict_to_name_values [(n, [])] = .ok ([128, 1, 17, 112, 0] ++ n) := by
  have hl : encode_length n.length = .ok [128, 1, 17, 112] := by
    rw [hn, encode_length_large (by norm_num) (by norm_num)]
    norm_num [be32]
  have hl0 : encode_length (List.length ([] : List Nat)) = .ok [0] := by
    norm_num [encode_length]
  have hpair : encode_pair (n, []) = .ok ([128, 1, 17, 112] ++ [0] ++ n ++ []) := by
    simp only [encode_pair, hl, hl0, Bind.bind, Except.bind]
  have hchain : dict_to_name_values [(n, [])] =
      .ok (([128, 1, 17, 112] ++ [0] ++ n ++ []) ++ []) := by
    simp only [dict_to_name_values, hpair, Bind.bind, Except.bind]
  rw [hchain, List.append_nil, List.append_nil]
  rfl

lemma big_encode : dict_to_name_values [(big_name, [])] = .ok big_bytes := by
  rw [big_bytes]
  exact big_encode_gen big_name (by rw [big_name, List.length_replicate])

theorem c9_oversize_management_witness :
    (0 : Nat) < 256 ∧
    dict_to_name_values ([big_name].map fun k => (k, [])) = .ok big_bytes ∧
    65536 ≤ big_bytes.length ∧
    dict_to_name_values [(big_name, [])] = .ok big_bytes ∧
    (mkGetValuesRecord [big_name] 0 = .ok (.getValues [big_name] 0) ∧
     (Record.getValues [big_name] 0).to_bytes = .error (.valueError "Content too long") ∧
     mkGetValuesResultRecord [(big_name, [])] 0 = .ok (.getValuesResult [(big_name, [])] 0) ∧
     (Record.getValuesResult [(big_name, [])] 0).to_bytes =
       .error (.valueError "Content too long")) :=
  have henc : dict_to_name_values ([big_name].map fun k => (k, [])) = .ok big_bytes :=
    big_encode
  have hlen : (65536 : Nat) ≤ big_bytes.length := by
    have h5 : big_bytes.length = 70005 := by
      rw [big_bytes, List.length_append, big_name, List.length_replicate]
      norm_num [List.length_cons, List.length_nil]
    omega
  ⟨by norm_num, henc, hlen, big_encode,
   c9_oversize_management [big_name] [(big_name, [])] 0 (by norm_num) big_bytes big_bytes
     henc hlen big_encode hlen⟩

-- ---- C3: construction bounds ----

/-- An `Except` computation that raised. -/
def is_error {α : Type} (e : Except Err α) : Prop := ∃ er, e = .error er

lemma record_init_is_error {reqid padlen : Nat} (h : 65536 ≤ reqid ∨ 256 ≤ padlen) :
    ∃ er, record_init reqid padlen = .error er := by
  by_cases h16 : reqid < 2 ^ 16
  · have hp : 2 ^ 8 ≤ padlen := by omega
    exact ⟨.valueError "Padding length out of range",
      by simp [record_init, check_bit_width_ok _ h16, check_bit_width_err _ hp,
        Bind.bind, Except.bind]⟩
  · exact ⟨.valueError "Request ID out of range",
      by simp [record_init, check_bit_width_err _ (show 2 ^ 16 ≤ reqid by omega),
        Bind.bind, Except.bind]⟩

lemma simple_record_init_is_error {reqid padlen : Nat} {content : List Nat}
    (h : 65536 ≤ reqid ∨ 256 ≤ padlen) :
    ∃ er, simple_record_init reqid content padlen = .error er := by
  obtain ⟨er, herr⟩ := record_init_is_error h
  exact ⟨er, by simp [simple_record_init, herr, Bind.bind, Except.bind]⟩

/-- C3 counterexample: the claim says constructing any request-scoped record
(Custom included) with request_id == 0 fails, but `CustomRecord.__init__` has
no such check: `CustomRecord(100, 0, b"", 0)` constructs successfully (the
repository's own test `test_construct_request_id_zero` asserts exactly this). -/
theorem c3_counterexample : mkCustomRecord 100 0 [] 0 = .ok (.custom 100 0 [] 0) := by decide

/-- C3 (amended): constructing any Record with request_id >= 2^16 or
padding_length >= 2^8 fails; constructing a request-scoped record other than
Custom (BeginRequest, AbortRequest, EndRequest, Params, Stdin, Stdout,
Stderr, Data) with request_id == 0 fails, while CustomRecord accepts
request_id == 0 (matching the repository test); constructing (via parse) any
management record (GetValues, GetValuesResult, UnknownType) with
request_id != 0 fails. -/
theorem c3_construction_bounds_amended :
    (∀ reqid padlen appstat : Nat, ∀ role : Role, ∀ kc : Bool, ∀ ps : ProtocolStatus,
      ∀ content : List Nat, ∀ t : Nat, 65536 ≤ reqid ∨ 256 ≤ padlen →
      is_error (mkBeginRequestRecord reqid role kc padlen) ∧
      is_error (mkAbortRequestRecord reqid padlen) ∧
      is_error (mkEndRequestRecord reqid appstat ps padlen) ∧
      is_error (mkParamsRecord reqid content padlen) ∧
      is_error (mkStdinRecord reqid content padlen) ∧
      is_error (mkStdoutRecord reqid content padlen) ∧
      is_error (mkStderrRecord reqid content padlen) ∧
      is_error (mkDataRecord reqid content padlen) ∧
      is_error (mkCustomRecord t reqid content padlen)) ∧
    (∀ padlen ut : Nat, ∀ names : List (List Nat), ∀ pairs : List (List Nat × List Nat),
      256 ≤ padlen →
      is_error (mkGetValuesRecord names padlen) ∧
      is_error (mkGetValuesResultRecord pairs padlen) ∧
      is_error (mkUnknownTypeRecord ut padlen)) ∧
    (∀ padlen appstat : Nat, ∀ role : Role, ∀ kc : Bool, ∀ ps : ProtocolStatus,
      ∀ content : List Nat,
      is_error (mkBeginRequestRecord 0 role kc padlen) ∧
      is_error (mkAbortRequestRecord 0 padlen) ∧
      is_error (mkEndRequestRecord 0 appstat ps padlen) ∧
      is_error (mkParamsRecord 0 content padlen) ∧
      is_error (mkStdinRecord 0 content padlen) ∧
      is_error (mkStdoutRecord 0 content padlen) ∧
      is_error (mkStderrRecord 0 content padlen) ∧
      is_error (mkDataRecord 0 content padlen)) ∧
    (∀ t padlen : Nat, ∀ content : List Nat, t < 256 → content.length < 65536 →
      padlen < 256 → mkCustomRecord t 0 content padlen = .ok (.custom t 0 content padlen)) ∧
    (∀ reqid padlen : Nat, ∀ content : List Nat, reqid ≠ 0 →
      is_error (GetValuesRecord.parse_content reqid content padlen) ∧
      is_error (GetValuesResultRecord.parse_content reqid content padlen) ∧
      is_error (UnknownTypeRecord.parse_content reqid content padlen)) := by
  have custom_err : ∀ t reqid padlen : Nat, ∀ content : List Nat,
      65536 ≤ reqid ∨ 256 ≤ padlen → is_error (mkCustomRecord t reqid content padlen) := by
    intro t reqid padlen content h
    obtain ⟨er2, herr2⟩ := @simple_record_init_is_error reqid padlen content h
    by_cases ht : t < 2 ^ 8
    · exact ⟨er2, by simp [mkCustomRecord, check_bit_width_ok _ ht, herr2,
        Bind.bind, Except.bind]⟩
    · exact ⟨.valueError "Type out of range", by
        simp [mkCustomRecord, check_bit_width_err _ (show 2 ^ 8 ≤ t by omega),
          Bind.bind, Except.bind]⟩
  refine ⟨?_, ?_, ?_, ?_, ?_⟩
  · intro reqid padlen appstat role kc ps content t h
    by_cases hz : reqid = 0
    · subst hz
      exact ⟨⟨.valueError "Invalid request ID", by simp [mkBeginRequestRecord]⟩,
        ⟨.valueError "Invalid request ID", by simp [mkAbortRequestRecord]⟩,
        ⟨.valueError "Invalid request ID", by simp [mkEndRequestRecord]⟩,
        ⟨.valueError "Invalid request ID", by simp [mkParamsRecord]⟩,
        ⟨.valueError "Invalid request ID", by simp [mkStdinRecord]⟩,
        ⟨.valueError "Invalid request ID", by simp [mkStdoutRecord]⟩,
        ⟨.valueError "Invalid request ID", by simp [mkStderrRecord]⟩,
        ⟨.valueError "Invalid request ID", by simp [mkDataRecord]⟩,
        custom_err t 0 padlen content h⟩
    · obtain ⟨er, herr⟩ := record_init_is_error h
      obtain ⟨er2, herr2⟩ := @simple_record_init_is_error reqid padlen content h
      exact ⟨⟨er, by simp [mkBeginRequestRecord, hz, herr, Bind.bind, Except.bind]⟩,
        ⟨er, by simp [mkAbortRequestRecord, hz, herr, Bind.bind, Except.bind]⟩,
        ⟨er, by simp [mkEndRequestRecord, hz, herr, Bind.bind, Except.bind]⟩,
        ⟨er2, by simp [mkParamsRecord, hz, herr2, Bind.bind, Except.bind]⟩,
        ⟨er2, by simp [mkStdinRecord, hz, herr2, Bind.bind, Except.bind]⟩,
        ⟨er2, by simp [mkStdoutRecord, hz, herr2, Bind.bind, Except.bind]⟩,
        ⟨er2, by simp [mkStderrRecord, hz, herr2, Bind.bind, Except.bind]⟩,
        ⟨er2, by simp [mkDataRecord, hz, herr2, Bind.bind, Except.bind]⟩,
        custom_err t reqid padlen content h⟩
  · intro padlen ut names pairs h
    obtain ⟨er, herr⟩ := @record_init_is_error 0 padlen (Or.inr h)
    exact ⟨⟨er, by simp [mkGetValuesRecord, herr, Bind.bind, Except.bind]⟩,
      ⟨er, by simp [mkGetValuesResultRecord, herr, Bind.bind, Except.bind]⟩,
      ⟨er, by simp [mkUnknownTypeRecord, herr, Bind.bind, Except.bind]⟩⟩
  · intro padlen appstat role kc ps content
    exact ⟨⟨.valueError "Invalid request ID", by simp [mkBeginRequestRecord]⟩,
      ⟨.valueError "Invalid request ID", by simp [mkAbortRequestRecord]⟩,
      ⟨.valueError "Invalid request ID", by simp [mkEndRequestRecord]⟩,
      ⟨.valueError "Invalid request ID", by simp [mkParamsRecord]⟩,
      ⟨.valueError "Invalid request ID", by simp [mkStdinRecord]⟩,
      ⟨.valueError "Invalid request ID", by simp [mkStdoutRecord]⟩,
      ⟨.valueError "Invalid request ID", by simp [mkStderrRecord]⟩,
      ⟨.valueError "Invalid request ID", by simp [mkDataRecord]⟩⟩
  · intro t padlen content ht hc hp
    simp [mkCustomRecord, check_bit_width_ok _ (show t < 2 ^ 8 by omega),
      @simple_record_init_ok 0 padlen content (by norm_num) (by omega) (by omega),
      Bind.bind, Except.bind]
  · intro reqid padlen content hne
    exact ⟨⟨.valueError "Invalid request ID", by
        simp [GetValuesRecord.parse_content, hne]⟩,
      ⟨.valueError "Invalid request ID", by
        simp [GetValuesResultRecord.parse_content, hne]⟩,
      ⟨.valueError "Invalid request ID", by
        simp [UnknownTypeRecord.parse_content, hne]⟩⟩

theorem c3_construction_bounds_amended_witness :
    is_error (mkBeginRequestRecord 70000 .responder false 0) ∧
    is_error (mkGetValuesRecord [] 300) ∧
    is_error (mkParamsRecord 0 [] 0) ∧
    mkCustomRecord 5 0 [] 0 = .ok (.custom 5 0 [] 0) ∧
    is_error (GetValuesRecord.parse_content 7 [] 0) :=
  ⟨(c3_construction_bounds_amended.1 70000 0 0 .responder false .requestComplete [] 0
      (Or.inl (by norm_num))).1,
   (c3_construction_bounds_amended.2.1 300 0 [] [] (by norm_num)).1,
   (c3_construction_bounds_amended.2.2.1 0 0 .responder false .requestComplete []).2.2.2.1,
   c3_construction_bounds_amended.2.2.2.1 5 0 [] (by norm_num) (by norm_num) (by norm_num),
   (c3_construction_bounds_amended.2.2.2.2 7 0 [] (by norm_num)).1⟩

-- ---- C7: header-read outcomes ----

lemma read_short (s : List Nat) (h1 : s ≠ []) (h8 : s.length < 8) :
    Record.read_from_stream s = .err .eofError := by
  rw [Record.read_from_stream]
  rw [if_neg (by simpa [List.isEmpty_iff] using h1)]
  rw [read_exact, if_pos h8]

lemma read_ne_eos (x : Nat) (xs : List Nat) : Record.read_from_stream (x :: xs) ≠ .eos := by
  rw [Record.read_from_stream]
  simp only [List.isEmpty_cons, Bool.false_eq_true, if_false]
  split
  · simp
  · split
    · split
      · simp
      · split
        · simp
        · split
          · simp
          · split <;> simp
    · simp

lemma read_bad_version (v b2 b3 b4 b5 b6 b7 b8 : Nat) (rest : List Nat) (hv : v ≠ 1) :
    Record.read_from_stream (v :: b2 :: b3 :: b4 :: b5 :: b6 :: b7 :: b8 :: rest) =
      .err (.valueError "Unknown record version") := by
  rw [Record.read_from_stream]
  simp only [List.isEmpty_cons, Bool.false_eq_true, if_false]
  rw [read_exact]
  rw [if_neg (by simp only [List.length_cons, not_lt]; omega)]
  simp only [List.take_succ_cons, List.take_zero, List.drop_succ_cons, List.drop_zero]
  rw [if_pos hv]

/-- C7: Reading a record from a byte stream returns the end-of-stream outcome
if and only if zero bytes are available at entry; it fails with a
truncated-input error if at least one but fewer than 8 header bytes arrive
before EOF; and it fails with an unsupported-version error whenever the 8
header bytes are read but the version byte is not 1. -/
theorem c7_read_header_errors (s : List Nat) :
    (Record.read_from_stream s = .eos ↔ s = []) ∧
    (1 ≤ s.length → s.length < 8 → Record.read_from_stream s = .err .eofError) ∧
    (∀ v b2 b3 b4 b5 b6 b7 b8 : Nat, ∀ rest : List Nat,
      s = v :: b2 :: b3 :: b4 :: b5 :: b6 :: b7 :: b8 :: rest → v ≠ 1 →
      Record.read_from_stream s = .err (.valueError "Unknown record version")) := by
  refine ⟨⟨fun h => ?_, fun h => by rw [h]; rfl⟩, fun h1 h8 => ?_, ?_⟩
  · cases s with
    | nil => rfl
    | cons x xs => exact absurd h (read_ne_eos x xs)
  · exact read_short s (by cases s with | nil => simp at h1 | cons x xs => simp) h8
  · intro v b2 b3 b4 b5 b6 b7 b8 rest hs hv
    rw [hs]
    exact read_bad_version v b2 b3 b4 b5 b6 b7 b8 rest hv

theorem c7_read_header_errors_witness :
    (Record.read_from_stream [] = .eos ↔ ([] : List Nat) = []) ∧
    (Record.read_from_stream [1, 2, 3] = .err .eofError) ∧
    (Record.read_from_stream [9, 0, 0, 0, 0, 0, 0, 0] =
      .err (.valueError "Unknown record version")) :=
  ⟨(c7_read_header_errors []).1,
   (c7_read_header_errors [1, 2, 3]).2.1 (by norm_num) (by norm_num),
   (c7_read_header_errors [9, 0, 0, 0, 0, 0, 0, 0]).2.2 9 0 0 0 0 0 0 0 [] rfl (by norm_num)⟩

-- ---- WSGI connection handler (fastcgi/wsgi.py `_Request`) ----

/-- Source `_Request._RECORD_MAX_DATA_LENGTH = 2**16 - 1`. -/
def RECORD_MAX_DATA_LENGTH : Nat := 65535

/-- Mutable response state of one `_Request`: the pending header lines
(`_headers`, each line as ISO-8859-1 bytes), the `_headers_written` flag, and
the records sent on the socket so far, in order. -/
structure RequestState where
  headers : List (List Nat)
  headersWritten : Bool
  out : List Record
deriving DecidableEq, Repr

/-- State right after `_Request.__init__`. -/
def init_request_state : RequestState := ⟨[], false, []⟩

/-- The loop of `_write_stdout`, on the remaining bytes: one chunk of
`min(len(b) - off, 65535)` bytes per iteration.  `fuel` bounds the iteration
count; every iteration consumes at least one byte, so `fuel ≥ b.length` is
enough. -/
def stdout_chunks_go (fuel : Nat) (b : List Nat) : List (List Nat) :=
  if b = [] then []
  else match fuel with
    | 0 => []
    | fuel + 1 =>
      b.take RECORD_MAX_DATA_LENGTH :: stdout_chunks_go fuel (b.drop RECORD_MAX_DATA_LENGTH)

/-- The chunks sent by the `while off < len(b)` loop of `_write_stdout`. -/
def stdout_chunks (b : List Nat) : List (List Nat) := stdout_chunks_go b.length b

/-- The record-emission part of `_write_stdout(b)`: one StdoutRecord per
chunk, appended to the outgoing record list.  (The per-iteration
`_write_headers()` call is handled by the callers below: it only acts on the
first iteration, because `_write_headers` sets `_headers_written` before it
writes.) -/
def write_stdout_raw (rid : Nat) (b : List Nat) (s : RequestState) : RequestState :=
  { s with out := s.out ++ (stdout_chunks b).map fun c => Record.stdout rid c 0 }

/-- Source `"\r\n"` as bytes. -/
def crlf : List Nat := [13, 10]

/-- Source `_write_headers()`: a no-op once `_headers_written` is set; fails with
"Headers not set" when no headers were recorded; otherwise sets
`_headers_written`, writes `"\r\n".join(self._headers)` through
`_write_stdout` (whose own header flush is then a no-op), and clears
`_headers`. -/
def write_headers (rid : Nat) (s : RequestState) : Except Err RequestState :=
  if s.headersWritten then .ok s
  else if s.headers = [] then .error (.valueError "Headers not set")
  else
    .ok { write_stdout_raw rid (List.intercalate crlf s.headers)
            { s with headersWritten := true } with
          headers := [] }

/-- Source `_write_stdout(b)`: each loop iteration calls `_write_headers()` (only
the first has any effect) and sends one chunk; an empty `b` sends nothing
and never enters the loop. -/
def write_stdout (rid : Nat) (b : List Nat) (s : RequestState) : Except Err RequestState :=
  if b = [] then .ok s
  else
    match write_headers rid s with
    | .error e => .error e
    | .ok s2 => .ok (write_stdout_raw rid b s2)

/-- Source `"HTTP/1.0 "` as bytes. -/
def http10 : List Nat := [72, 84, 84, 80, 47, 49, 46, 48, 32]

/-- Source `": "` as bytes. -/
def colon_space : List Nat := [58, 32]

/-- The header-line list built by `_start_response`:
`["HTTP/1.0 " + status] + [": ".join(kv) for kv in respheaders] + ["", ""]`. -/
def mk_header_lines (status : List Nat) (respheaders : List (List Nat × List Nat)) :
    List (List Nat) :=
  (http10 ++ status) :: (respheaders.map fun kv => kv.1 ++ colon_space ++ kv.2) ++ [[], []]

/-- Source `_start_response(status, respheaders, excinfo)`. -/
def start_response (status : List Nat) (respheaders : List (List Nat × List Nat))
    (excinfo : Bool) (s : RequestState) : Except Err RequestState :=
  if s.headersWritten then .error (.valueError "Headers already written")
  else if s.headers ≠ [] ∧ excinfo = false then .error (.valueError "Headers already set")
  else .ok { s with headers := mk_header_lines status respheaders }

/-- What the application callable does, observed through the gateway
interface: calls to `start_response` and byte chunks yielded by its iterable
(written via `_write_stdout`), in order. -/
inductive AppEvent where
  | start (status : List Nat) (respheaders : List (List Nat × List Nat)) (excinfo : Bool)
  | body (b : List Nat)

/-- Driving the request state through a sequence of application events. -/
def run_app (rid : Nat) : List AppEvent → RequestState → Except Err RequestState
  | [], s => .ok s
  | .start status hdrs exc :: evs, s =>
    match start_response status hdrs exc s with
    | .error e => .error e
    | .ok s2 => run_app rid evs s2
  | .body b :: evs, s =>
    match write_stdout rid b s with
    | .error e => .error e
    | .ok s2 => run_app rid evs s2

/-- The response half of `_Request._process()`: run the application, then
`_write_headers()`, then send one empty StdoutRecord and one EndRequestRecord
with application status 0 and REQUEST_COMPLETE.  Returns the records sent on
the socket for the request, in order. -/
def process_request (rid : Nat) (evs : List AppEvent) : Except Err (List Record) :=
  match run_app rid evs init_request_state with
  | .error e => .error e
  | .ok s =>
    match write_headers rid s with
    | .error e => .error e
    | .ok s2 =>
      .ok (s2.out ++ [Record.stdout rid [] 0, Record.endRequest rid 0 .requestComplete 0])

-- ---- Environment construction (C2) ----

/-- The values stored in the WSGI environ mapping. -/
inductive EnvVal where
  | verTuple                 -- wsgi.version = (1, 0)
  | inputStream              -- wsgi.input
  | errorSink                -- wsgi.errors
  | boolVal (b : Bool)
  | strVal (v : String)
deriving DecidableEq, Repr

/-- Python dict lookup `d[k]` (as an Option; `KeyError` at the use sites). -/
def py_lookup {α β : Type} [DecidableEq α] (k : α) : List (α × β) → Option β
  | [] => none
  | (k1, v) :: t => if k1 = k then some v else py_lookup k t

/-- Source `dict.update(d)`: insert every entry of `d`, overwriting existing keys. -/
def py_update {α β : Type} [DecidableEq α] (d l : List (α × β)) : List (α × β) :=
  l.foldl (fun d kv => py_dict_insert d kv.1 kv.2) d

/-- The fixed environ of `_Request._process` in fastcgi/wsgi.py (lines
214-221): no `wsgi.url_scheme` entry. -/
def base_environ : List (String × EnvVal) :=
  [("wsgi.version", .verTuple),
   ("wsgi.input", .inputStream),
   ("wsgi.errors", .errorSink),
   ("wsgi.multithread", .boolVal true),
   ("wsgi.multiprocess", .boolVal false),
   ("wsgi.run_once", .boolVal false)]

/-- The fixed environ of `_Request._process` in wsgi.py (lines 134-142):
`wsgi.url_scheme` preset to `"http"`. -/
def base_environ_old : List (String × EnvVal) :=
  [("wsgi.version", .verTuple),
   ("wsgi.url_scheme", .strVal "http"),
   ("wsgi.input", .inputStream),
   ("wsgi.errors", .errorSink),
   ("wsgi.multithread", .boolVal true),
   ("wsgi.multiprocess", .boolVal false),
   ("wsgi.run_once", .boolVal false)]

/-- Environ construction in fastcgi/wsgi.py:
`environ.update(name_values_to_dict(params))` then
`environ["wsgi.url_scheme"] = environ["REQUEST_SCHEME"]` (KeyError when the
Params stream has no REQUEST_SCHEME entry). -/
def build_environ (params : List (String × String)) :
    Except Err (List (String × EnvVal)) :=
  let env := py_update base_environ (params.map fun kv => (kv.1, EnvVal.strVal kv.2))
  match py_lookup "REQUEST_SCHEME" env with
  | none => .error (.keyError "REQUEST_SCHEME")
  | some v => .ok (py_dict_insert env "wsgi.url_scheme" v)

/-- Environ construction in wsgi.py: just
`environ.update(name_values_to_dict(params))`; `wsgi.url_scheme` is never
copied from REQUEST_SCHEME. -/
def build_environ_old (params : List (String × String)) : List (String × EnvVal) :=
  py_update base_environ_old (params.map fun kv => (kv.1, EnvVal.strVal kv.2))

lemma stdout_chunks_go_join :
    ∀ (fuel : Nat) (b : List Nat), b.length ≤ fuel → (stdout_chunks_go fuel b).flatten = b := by
  intro fuel
  induction fuel with
  | zero =>
    intro b hb
    have hbe : b = [] := List.length_eq_zero.mp (Nat.le_zero.mp hb)
    subst hbe
    rw [stdout_chunks_go]
    simp
  | succ n ih =>
    intro b hb
    rw [stdout_chunks_go]
    by_cases hbe : b = []
    · simp [hbe]
    · rw [if_neg hbe]
      simp only [List.flatten_cons]
      rw [ih (b.drop RECORD_MAX_DATA_LENGTH)
        (by
          simp only [List.length_drop, RECORD_MAX_DATA_LENGTH]
          have : b.length ≠ 0 := fun h => hbe (List.length_eq_zero.mp h)
          omega)]
      exact List.take_append_drop _ b

lemma stdout_chunks_join (b : List Nat) : (stdout_chunks b).flatten = b :=
  stdout_chunks_go_join b.length b le_rfl

lemma stdout_chunks_go_mem :
    ∀ (fuel : Nat) (b : List Nat), b.length ≤ fuel →
      ∀ c ∈ stdout_chunks_go fuel b, c ≠ [] ∧ c.length ≤ 65535 := by
  intro fuel
  induction fuel with
  | zero =>
    intro b hb c hc
    have hbe : b = [] := List.length_eq_zero.mp (Nat.le_zero.mp hb)
    subst hbe
    rw [stdout_chunks_go] at hc
    simp at hc
  | succ n ih =>
    intro b hb c hc
    rw [stdout_chunks_go] at hc
    by_cases hbe : b = []
    · simp [hbe] at hc
    · rw [if_neg hbe] at hc
      rcases List.mem_cons.mp hc with rfl | hc2
      · refine ⟨?_, ?_⟩
        · intro htake
          rcases List.take_eq_nil_iff.mp htake with h | h
          · simp [RECORD_MAX_DATA_LENGTH] at h
          · exact hbe h
        · simpa [RECORD_MAX_DATA_LENGTH] using
            (List.length_take _ b ▸ Nat.min_le_left RECORD_MAX_DATA_LENGTH b.length)
      · exact ih (b.drop RECORD_MAX_DATA_LENGTH)
          (by
            simp only [List.length_drop, RECORD_MAX_DATA_LENGTH]
            have : b.length ≠ 0 := fun h => hbe (List.length_eq_zero.mp h)
            omega) c hc2

lemma stdout_chunks_mem (b : List Nat) : ∀ c ∈ stdout_chunks b, c ≠ [] ∧ c.length ≤ 65535 :=
  stdout_chunks_go_mem b.length b le_rfl

/-- Everything the request has sent so far is a non-empty Stdout record for
this request id. -/
def good_out (rid : Nat) (l : List Record) : Prop :=
  ∀ r ∈ l, ∃ c, r = Record.stdout rid c 0 ∧ c ≠ []

lemma good_out_append {rid : Nat} {l1 l2 : List Record}
    (h1 : good_out rid l1) (h2 : good_out rid l2) : good_out rid (l1 ++ l2) := by
  intro r hr
  rcases List.mem_append.mp hr with h | h
  · exact h1 r h
  · exact h2 r h

lemma good_out_chunks (rid : Nat) (b : List Nat) :
    good_out rid ((stdout_chunks b).map fun c => Record.stdout rid c 0) := by
  intro r hr
  rcases List.mem_map.mp hr with ⟨c, hc, rfl⟩
  exact ⟨c, rfl, (stdout_chunks_mem b c hc).1⟩

lemma write_stdout_raw_good {rid : Nat} {b : List Nat} {s : RequestState}
    (h : good_out rid s.out) : good_out rid (write_stdout_raw rid b s).out :=
  good_out_append h (good_out_chunks rid b)

lemma write_headers_good {rid : Nat} {s s' : RequestState}
    (hs : write_headers rid s = .ok s') (h : good_out rid s.out) : good_out rid s'.out := by
  unfold write_headers at hs
  by_cases hw : s.headersWritten
  · rw [if_pos hw] at hs
    cases hs
    exact h
  · rw [if_neg hw] at hs
    by_cases hh : s.headers = []
    · rw [if_pos hh] at hs
      cases hs
    · rw [if_neg hh] at hs
      cases hs
      exact write_stdout_raw_good h

lemma write_stdout_good {rid : Nat} {b : List Nat} {s s' : RequestState}
    (hs : write_stdout rid b s = .ok s') (h : good_out rid s.out) : good_out rid s'.out := by
  unfold write_stdout at hs
  by_cases hb : b = []
  · rw [if_pos hb] at hs
    cases hs
    exact h
  · rw [if_neg hb] at hs
    cases hw : write_headers rid s with
    | error e => rw [hw] at hs; cases hs
    | ok s2 =>
      rw [hw] at hs
      cases hs
      exact write_stdout_raw_good (write_headers_good hw h)

lemma start_response_out {status : List Nat} {hdrs : List (List Nat × List Nat)}
    {exc : Bool} {s s' : RequestState}
    (hs : start_response status hdrs exc s = .ok s') : s'.out = s.out := by
  unfold start_response at hs
  by_cases hw : s.headersWritten
  · rw [if_pos hw] at hs
    cases hs
  · rw [if_neg hw] at hs
    by_cases hh : s.headers ≠ [] ∧ exc = false
    · rw [if_pos hh] at hs
      cases hs
    · rw [if_neg hh] at hs
      cases hs
      rfl

lemma run_app_good {rid : Nat} (evs : List AppEvent) :
    ∀ s s' : RequestState, run_app rid evs s = .ok s' →
      good_out rid s.out → good_out rid s'.out := by
  induction evs with
  | nil =>
    intro s s' h hg
    cases h
    exact hg
  | cons ev evs ih =>
    intro s s' h hg
    cases ev with
    | start status hdrs exc =>
      rw [run_app] at h
      cases hsr : start_response status hdrs exc s with
      | error e => rw [hsr] at h; cases h
      | ok s2 =>
        rw [hsr] at h
        exact ih s2 s' h (by rw [start_response_out hsr]; exact hg)
    | body b =>
      rw [run_app] at h
      cases hws : write_stdout rid b s with
      | error e => rw [hws] at h; cases h
      | ok s2 =>
        rw [hws] at h
        exact ih s2 s' h (write_stdout_good hws hg)

/-- C5: For every request that the handler processes to completion, the
records written on the socket are: zero or more Stdout records carrying the
headers and body, followed by exactly one Stdout record with empty content,
followed by exactly one EndRequest record with application_status = 0 and
protocol_status = REQUEST_COMPLETE; the EndRequest record is the last record
written for the request. -/
theorem c5_response_shape (rid : Nat) (evs : List AppEvent) (out : List Record)
    (h : process_request rid evs = .ok out) :
    ∃ body, out = body ++ [Record.stdout rid [] 0,
        Record.endRequest rid 0 .requestComplete 0] ∧
      ∀ r ∈ body, ∃ c, r = Record.stdout rid c 0 ∧ c ≠ [] := by
  unfold process_request at h
  split at h
  · exact Except.noConfusion h
  · split at h
    · exact Except.noConfusion h
    · rename_i x1 st1 hra x2 st2 hwh
      injection h with h2
      subst h2
      refine ⟨st2.out, rfl, ?_⟩
      exact write_headers_good hwh
        (run_app_good evs init_request_state st1 hra (by intro r hr; cases hr))

theorem c5_response_shape_witness :
    process_request 3 [AppEvent.start [50, 48, 48] [] false, AppEvent.body [104, 105]] =
      .ok ([Record.stdout 3 (List.intercalate crlf (mk_header_lines [50, 48, 48] [])) 0,
            Record.stdout 3 [104, 105] 0] ++
        [Record.stdout 3 [] 0, Record.endRequest 3 0 .requestComplete 0]) ∧
    ∃ body,
      ([Record.stdout 3 (List.intercalate crlf (mk_header_lines [50, 48, 48] [])) 0,
        Record.stdout 3 [104, 105] 0] ++
        [Record.stdout 3 [] 0, Record.endRequest 3 0 .requestComplete 0]) =
        body ++ [Record.stdout 3 [] 0, Record.endRequest 3 0 .requestComplete 0] ∧
      ∀ r ∈ body, ∃ c, r = Record.stdout 3 c 0 ∧ c ≠ [] := by
  have hp : process_request 3 [AppEvent.start [50, 48, 48] [] false, AppEvent.body [104, 105]] =
      .ok ([Record.stdout 3 (List.intercalate crlf (mk_header_lines [50, 48, 48] [])) 0,
            Record.stdout 3 [104, 105] 0] ++
        [Record.stdout 3 [] 0, Record.endRequest 3 0 .requestComplete 0]) := by decide
  exact ⟨hp, c5_response_shape 3 _ _ hp⟩

lemma write_stdout_raw_headersWritten {rid : Nat} {b : List Nat} {s : RequestState} :
    (write_stdout_raw rid b s).headersWritten = s.headersWritten := rfl

lemma write_stdout_of_written {rid : Nat} {b : List Nat} {s : RequestState}
    (h : s.headersWritten = true) :
    write_stdout rid b s = .ok (write_stdout_raw rid b s) := by
  by_cases hb : b = []
  · subst hb
    rw [write_stdout, if_pos rfl, write_stdout_raw]
    rw [stdout_chunks]
    simp [stdout_chunks_go]
  · rw [write_stdout, if_neg hb, write_headers, if_pos h]

/-- The content carried by a Stdout record (used to state C6). -/
def stdout_content : Record → List Nat
  | .stdout _ c _ => c
  | _ => []

/-- C6: For every sequence of byte chunks yielded by the application (of any
lengths), every Stdout record emitted by the handler's write path has content
length at most 65535, and concatenating the contents of the emitted body
Stdout records in emission order equals the concatenation of the input
chunks.  (The state is any state whose headers have already been flushed,
which holds from the first body byte on; the write path then emits body
records only.) -/
theorem c6_chunking (rid : Nat) (bs : List (List Nat)) (s : RequestState)
    (h : s.headersWritten = true) :
    ∃ recs, run_app rid (bs.map AppEvent.body) s = .ok { s with out := s.out ++ recs } ∧
      (∀ r ∈ recs, ∃ c, r = Record.stdout rid c 0 ∧ c.length ≤ 65535) ∧
      (recs.map stdout_content).flatten = bs.flatten := by
  induction bs generalizing s with
  | nil =>
    refine ⟨[], ?_, by simp, by simp⟩
    show Except.ok s = _
    rw [List.append_nil]
  | cons b bs ih =>
    obtain ⟨recs, hrun, hrecs, hcat⟩ := ih (write_stdout_raw rid b s)
      (by rw [write_stdout_raw_headersWritten]; exact h)
    refine ⟨((stdout_chunks b).map fun c => Record.stdout rid c 0) ++ recs, ?_, ?_, ?_⟩
    · simp only [List.map_cons, run_app, write_stdout_of_written h]
      rw [hrun]
      rw [write_stdout_raw]
      rw [List.append_assoc]
    · intro r hr
      rcases List.mem_append.mp hr with hr1 | hr2
      · rcases List.mem_map.mp hr1 with ⟨c, hc, rfl⟩
        exact ⟨c, rfl, (stdout_chunks_mem b c hc).2⟩
      · exact hrecs r hr2
    · rw [List.map_append, List.flatten_append, List.map_map]
      have hcomp : (stdout_content ∘ fun c => Record.stdout rid c 0) = fun c => c := rfl
      rw [hcomp, List.map_id'' (fun _ => rfl) _, stdout_chunks_join, hcat]
      rfl

theorem c6_chunking_witness :
    (RequestState.mk [] true []).headersWritten = true ∧
    ∃ recs, run_app 5 ([[1, 2], [3]].map AppEvent.body) (RequestState.mk [] true []) =
        .ok { RequestState.mk [] true [] with
              out := (RequestState.mk [] true []).out ++ recs } ∧
      (∀ r ∈ recs, ∃ c, r = Record.stdout 5 c 0 ∧ c.length ≤ 65535) ∧
      (recs.map stdout_content).flatten = ([[1, 2], [3]] : List (List Nat)).flatten :=
  ⟨rfl, c6_chunking 5 [[1, 2], [3]] (RequestState.mk [] true []) rfl⟩

/-- C10: Within one request, the header-flush operation is idempotent: after
it has run successfully once (marking headers as written), every subsequent
invocation returns the state unchanged and emits nothing, so the header
bytes are sent at most once per request. -/
theorem c10_write_headers_idempotent (rid : Nat) (s s' : RequestState)
    (h : write_headers rid s = .ok s') :
    s'.headersWritten = true ∧ write_headers rid s' = .ok s' := by
  unfold write_headers at h
  by_cases hw : s.headersWritten
  · rw [if_pos hw] at h
    injection h with h2
    subst h2
    exact ⟨hw, by rw [write_headers, if_pos hw]⟩
  · rw [if_neg hw] at h
    by_cases hh : s.headers = []
    · rw [if_pos hh] at h
      exact Except.noConfusion h
    · rw [if_neg hh] at h
      injection h with h2
      subst h2
      refine ⟨rfl, ?_⟩
      rw [write_headers]
      rfl

theorem c10_write_headers_idempotent_witness :
    write_headers 4 (RequestState.mk [[72]] false []) =
      .ok (RequestState.mk [] true [Record.stdout 4 [72] 0]) ∧
    ((RequestState.mk [] true [Record.stdout 4 [72] 0]).headersWritten = true ∧
      write_headers 4 (RequestState.mk [] true [Record.stdout 4 [72] 0]) =
        .ok (RequestState.mk [] true [Record.stdout 4 [72] 0])) := by
  have h : write_headers 4 (RequestState.mk [[72]] false []) =
      .ok (RequestState.mk [] true [Record.stdout 4 [72] 0]) := by decide
  exact ⟨h, c10_write_headers_idempotent 4 _ _ h⟩

/-- C8: For every request: the first call to start_response records the
status and headers and succeeds; a second call made before any header/body
bytes have been written succeeds only when an exception-info argument is
supplied (replacing the stored headers) and is rejected otherwise; a call
made after headers have been written is rejected; and if the application
yields no body bytes, the handler still flushes the headers before the
terminating empty Stdout, that flush failing with a headers-not-set error
when start_response was never called. -/
theorem c8_start_response_discipline (rid : Nat) (status status2 : List Nat)
    (hdrs hdrs2 : List (List Nat × List Nat)) :
    (∀ s : RequestState, s.headers = [] → s.headersWritten = false →
      start_response status hdrs false s =
        .ok { s with headers := mk_header_lines status hdrs }) ∧
    (∀ s : RequestState, s.headers ≠ [] → s.headersWritten = false →
      start_response status2 hdrs2 true s =
        .ok { s with headers := mk_header_lines status2 hdrs2 } ∧
      start_response status2 hdrs2 false s = .error (.valueError "Headers already set")) ∧
    (∀ s : RequestState, ∀ exc : Bool, s.headersWritten = true →
      start_response status2 hdrs2 exc s = .error (.valueError "Headers already written")) ∧
    process_request rid [] = .error (.valueError "Headers not set") ∧
    process_request rid [.start status hdrs false] =
      .ok (((stdout_chunks (List.intercalate crlf (mk_header_lines status hdrs))).map
          fun c => Record.stdout rid c 0) ++
        [Record.stdout rid [] 0, Record.endRequest rid 0 .requestComplete 0]) := by
  refine ⟨?_, ?_, ?_, ?_, ?_⟩
  · intro s hh hw
    rw [start_response, if_neg (by simp [hw]), if_neg (by simp [hh])]
  · intro s hh hw
    refine ⟨?_, ?_⟩
    · rw [start_response, if_neg (by simp [hw]), if_neg (by simp)]
    · rw [start_response, if_neg (by simp [hw]), if_pos ⟨hh, rfl⟩]
  · intro s exc hw
    rw [start_response, if_pos hw]
  · rw [process_request]
    simp [run_app, write_headers, init_request_state]
  · rw [process_request]
    simp only [run_app, start_response, init_request_state]
    rw [if_neg (by simp), if_neg (by simp)]
    simp only [run_app, write_headers]
    rw [if_neg (by simp), if_neg (by simp [mk_header_lines])]
    simp [write_stdout_raw]

theorem c8_start_response_discipline_witness :
    ((RequestState.mk [] false []).headers = [] ∧
      (RequestState.mk [] false []).headersWritten = false ∧
      start_response [50] [] false (RequestState.mk [] false []) =
        .ok { RequestState.mk [] false [] with headers := mk_header_lines [50] [] }) ∧
    ((RequestState.mk [[72]] false []).headers ≠ [] ∧
      start_response [51] [] true (RequestState.mk [[72]] false []) =
        .ok { RequestState.mk [[72]] false [] with headers := mk_header_lines [51] [] } ∧
      start_response [51] [] false (RequestState.mk [[72]] false []) =
        .error (.valueError "Headers already set")) ∧
    (start_response [51] [] true (RequestState.mk [] true []) =
      .error (.valueError "Headers already written")) ∧
    process_request 2 [] = .error (.valueError "Headers not set") ∧
    process_request 2 [.start [50] [] false] =
      .ok (((stdout_chunks (List.intercalate crlf (mk_header_lines [50] []))).map
          fun c => Record.stdout 2 c 0) ++
        [Record.stdout 2 [] 0, Record.endRequest 2 0 .requestComplete 0]) :=
  ⟨⟨rfl, rfl, (c8_start_response_discipline 2 [50] [51] [] []).1 _ rfl rfl⟩,
   ⟨by simp, ((c8_start_response_discipline 2 [51] [51] [] []).2.1 _ (by simp) rfl).1,
    ((c8_start_response_discipline 2 [51] [51] [] []).2.1 _ (by simp) rfl).2⟩,
   (c8_start_response_discipline 2 [50] [51] [] []).2.2.1 _ true rfl,
   (c8_start_response_discipline 2 [50] [51] [] []).2.2.2.1,
   (c8_start_response_discipline 2 [50] [51] [] []).2.2.2.2⟩

-- ---- C2: wsgi.url_scheme ----

lemma py_lookup_insert {α β : Type} [DecidableEq α] (d : List (α × β)) (k k' : α) (v : β) :
    py_lookup k' (py_dict_insert d k v) = if k' = k then some v else py_lookup k' d := by
  induction d with
  | nil =>
    show py_lookup k' [(k, v)] = if k' = k then some v else none
    rw [py_lookup]
    by_cases h : k = k'
    · rw [if_pos h, if_pos h.symm]
    · rw [if_neg h, if_neg (fun hx => h hx.symm), py_lookup]
  | cons p t ih =>
    obtain ⟨k1, v1⟩ := p
    rw [py_dict_insert]
    by_cases h1 : k1 = k
    · subst h1
      rw [if_pos rfl, py_lookup]
      by_cases h : k1 = k'
      · rw [if_pos h, if_pos h.symm]
      · rw [if_neg h, if_neg (fun hx => h hx.symm), py_lookup, if_neg h]
    · rw [if_neg h1, py_lookup, ih]
      conv_rhs => rw [py_lookup]
      by_cases h : k1 = k'
      · subst h
        rw [if_pos rfl, if_neg (show ¬ k1 = k from h1), if_pos rfl]
      · rw [if_neg h]
        by_cases hk : k' = k
        · rw [if_pos hk, if_pos hk]
        · rw [if_neg hk, if_neg hk, if_neg h]

lemma py_lookup_none_of_not_mem {α β : Type} [DecidableEq α] (d : List (α × β)) (k : α)
    (h : k ∉ d.map Prod.fst) : py_lookup k d = none := by
  induction d with
  | nil => rfl
  | cons p t ih =>
    obtain ⟨k1, v1⟩ := p
    simp only [List.map_cons, List.mem_cons, not_or] at h
    rw [py_lookup, if_neg (fun hx => h.1 hx.symm)]
    exact ih h.2

lemma py_lookup_update {α β : Type} [DecidableEq α] (base d : List (α × β)) (k : α)
    (hnd : (d.map Prod.fst).Nodup) :
    py_lookup k (py_update base d) =
      match py_lookup k d with
      | some v => some v
      | none => py_lookup k base := by
  induction d generalizing base with
  | nil => rfl
  | cons p t ih =>
    obtain ⟨k0, v0⟩ := p
    simp only [List.map_cons, List.nodup_cons] at hnd
    have step : py_update base ((k0, v0) :: t) = py_update (py_dict_insert base k0 v0) t := rfl
    rw [step, ih _ hnd.2, py_lookup]
    by_cases hk : k0 = k
    · subst hk
      rw [if_pos rfl, py_lookup_none_of_not_mem t k0 hnd.1, py_lookup_insert, if_pos rfl]
    · rw [if_neg hk]
      cases hlt : py_lookup k t with
      | some v => rfl
      | none =>
        rw [py_lookup_insert, if_neg (fun hx => hk hx.symm)]

lemma py_lookup_map_strVal (params : List (String × String)) (k : String) :
    py_lookup k (params.map fun kv => (kv.1, EnvVal.strVal kv.2)) =
      (py_lookup k params).map EnvVal.strVal := by
  induction params with
  | nil => rfl
  | cons p t ih =>
    obtain ⟨k1, v1⟩ := p
    simp only [List.map_cons]
    rw [py_lookup, py_lookup]
    by_cases h : k1 = k
    · rw [if_pos h, if_pos h]
      rfl
    · rw [if_neg h, if_neg h, ih]

/-- C2 counterexample: the claim fails on both handler variants.  In wsgi.py,
a request whose Params carry REQUEST_SCHEME = "https" is processed with
`wsgi.url_scheme` still `"http"` (the value is never copied); in
fastcgi/wsgi.py, a request whose Params lack REQUEST_SCHEME makes `_process`
raise KeyError instead of defaulting `wsgi.url_scheme` to `"http"`. -/
theorem c2_url_scheme_counterexample :
    (py_lookup "wsgi.url_scheme" (build_environ_old [("REQUEST_SCHEME", "https")]) =
      some (.strVal "http") ∧ EnvVal.strVal "http" ≠ EnvVal.strVal "https") ∧
    build_environ [] = .error (.keyError "REQUEST_SCHEME") := by
  refine ⟨⟨?_, by decide⟩, ?_⟩
  · rfl
  · rfl

/-- C2 (amended): in the fastcgi/wsgi.py handler the environment passed to
the application has wsgi.url_scheme equal to the REQUEST_SCHEME entry of the
Params stream when that entry is present, and processing fails with KeyError
(the application is never invoked) when it is absent; in the wsgi.py handler
wsgi.url_scheme is always "http" regardless of REQUEST_SCHEME. -/
theorem c2_url_scheme_amended (params : List (String × String))
    (hnd : (params.map Prod.fst).Nodup)
    (hws : "wsgi.url_scheme" ∉ params.map Prod.fst) :
    (∀ v : String, py_lookup "REQUEST_SCHEME" params = some v →
      ∃ env, build_environ params = .ok env ∧
        py_lookup "wsgi.url_scheme" env = some (.strVal v)) ∧
    (py_lookup "REQUEST_SCHEME" params = none →
      build_environ params = .error (.keyError "REQUEST_SCHEME")) ∧
    py_lookup "wsgi.url_scheme" (build_environ_old params) = some (.strVal "http") := by
  have hndm : ((params.map fun kv => (kv.1, EnvVal.strVal kv.2)).map Prod.fst).Nodup := by
    rw [List.map_map]
    exact hnd
  refine ⟨?_, ?_, ?_⟩
  · intro v hv
    have henv : py_lookup "REQUEST_SCHEME"
        (py_update base_environ (params.map fun kv => (kv.1, EnvVal.strVal kv.2))) =
        some (.strVal v) := by
      rw [py_lookup_update _ _ _ hndm, py_lookup_map_strVal, hv]
      rfl
    refine ⟨py_dict_insert
        (py_update base_environ (params.map fun kv => (kv.1, EnvVal.strVal kv.2)))
        "wsgi.url_scheme" (.strVal v), ?_, ?_⟩
    · simp only [build_environ]
      rw [henv]
    · rw [py_lookup_insert, if_pos rfl]
  · intro hv
    have henv : py_lookup "REQUEST_SCHEME"
        (py_update base_environ (params.map fun kv => (kv.1, EnvVal.strVal kv.2))) =
        none := by
      rw [py_lookup_update _ _ _ hndm, py_lookup_map_strVal, hv]
      rfl
    simp only [build_environ]
    rw [henv]
  · have hwsm : "wsgi.url_scheme" ∉
        (params.map fun kv => (kv.1, EnvVal.strVal kv.2)).map Prod.fst := by
      rw [List.map_map]
      exact hws
    rw [build_environ_old, py_lookup_update _ _ _ hndm,
      py_lookup_none_of_not_mem _ _ hwsm]
    rfl

theorem c2_url_scheme_amended_witness :
    ((([("REQUEST_SCHEME", "https")] : List (String × String)).map Prod.fst).Nodup ∧
      "wsgi.url_scheme" ∉ ([("REQUEST_SCHEME", "https")] :
        List (String × String)).map Prod.fst ∧
      py_lookup "REQUEST_SCHEME" [("REQUEST_SCHEME", "https")] = some "https" ∧
      ∃ env, build_environ [("REQUEST_SCHEME", "https")] = .ok env ∧
        py_lookup "wsgi.url_scheme" env = some (.strVal "https")) ∧
    ((([] : List (String × String)).map Prod.fst).Nodup ∧
      py_lookup "REQUEST_SCHEME" ([] : List (String × String)) = none ∧
      build_environ [] = .error (.keyError "REQUEST_SCHEME")) ∧
    py_lookup "wsgi.url_scheme" (build_environ_old [("REQUEST_SCHEME", "https")]) =
      some (.strVal "http") :=
  ⟨⟨by decide, by decide, rfl,
    (c2_url_scheme_amended [("REQUEST_SCHEME", "https")] (by decide) (by decide)).1
      "https" rfl⟩,
   ⟨by decide, rfl,
    (c2_url_scheme_amended [] (by decide) (by decide)).2.1 rfl⟩,
   (c2_url_scheme_amended [("REQUEST_SCHEME", "https")] (by decide) (by decide)).2.2⟩
